import Mathlib

/-!
# StarEngine `GraphicsManager`: a shallow embedding

Source: `src/StarEngine/jni/Graphics/GraphicsManager.cpp`.

Conventions of the embedding.

* A `float` is IEEE binary32. The value of a finite float is kept as a
  rational, and `CalculateViewPort` rounds the exact result of each of its
  operations to the binary32 grid (`roundFloat`: to nearest, ties to even).
  `static_cast<int>` truncates toward zero and is undefined outside `int`.
* `int32` / `EGLint` arguments are `Int`. `float(n)` is `floatOfInt n`, the
  rounded value, which is `n` itself below `2 ^ 24` in magnitude
  (`roundFloat_intCast`). Mobile `Initialize` converts the size of an EGL
  surface, which is below that bound, and keeps the exact value.
* Pointers and EGL handles are addresses (`Nat`), `0` being `NULL`,
  `EGL_NO_DISPLAY`, `EGL_NO_SURFACE`, `EGL_NO_CONTEXT`.
* The manager is a value of `GraphicsManager`; a `World` pairs it with the
  trace of the calls made to GL / WGL / EGL / the sprite batch and with the
  lines given to the logger, oldest first.
* Undefined behaviour is a fault of the `Except` monad: a call through a
  `NULL` function pointer is `Fault.nullFunctionPointerCall`, a conversion
  to `int` of a float that is not finite or not in range is
  `Fault.floatToIntUndefined`.
* The `DESKTOP` and mobile compilations of the file are the namespaces
  `Desktop` and `Mobile`.
-/

namespace star

/-! ## Data model -/

/-- The engine's two-component float vector. -/
structure vec2 where
  x : ℚ
  y : ℚ
  deriving DecidableEq

/-- The engine's 4x4 float matrix; `*` is the matrix product. -/
abbrev mat4x4 := Matrix (Fin 4) (Fin 4) ℚ

/-- Truncation toward zero: the value of a conversion of a float to `int`
where the conversion is defined. -/
def truncToInt (q : ℚ) : Int := Int.tdiv q.num q.den

/-- Ways the code can leave defined behaviour. -/
inductive Fault where
  | nullFunctionPointerCall
  | floatToIntUndefined
  deriving DecidableEq

/-! ## binary32 arithmetic

A `float` is IEEE binary32. The model keeps the value of a finite float as a
rational and rounds the exact result of every operation to the binary32
grid, to nearest with ties to even (`FLT_EVAL_METHOD` 0). An operation whose
result is not finite (a division by zero, an overflow) has no rational
value: in `CalculateViewPort` such a value always reaches a
`static_cast<int>`, which is undefined on it, before the function has any
effect, so the model raises `Fault.floatToIntUndefined` where the value
arises. The two zeros are one value: the code divides by a screen
resolution and by `2` only, never by a computed value, so nothing tells
them apart. -/

/-- The nearest integer, ties to the even one. -/
def roundHalfEven (x : ℚ) : Int :=
  let f := ⌊x⌋
  if x - f < 1 / 2 then f
  else if 1 / 2 < x - f then f + 1
  else if f % 2 = 0 then f else f + 1

/-- The exponent of the binary32 grid at `q`: 24 significant bits, and
the subnormal grid `2 ^ (-149)` at the bottom. -/
def ulpExponent (q : ℚ) : Int := max (Int.log 2 |q| - 23) (-149)

/-- Rounding to the binary32 grid, to nearest, ties to even, the exponent
not bounded above. -/
def roundFloat (q : ℚ) : ℚ := roundHalfEven (q / 2 ^ ulpExponent q) * 2 ^ ulpExponent q

/-- The float of an operation whose exact result is `q`: the rounded value
when it is finite, that is below `2 ^ 128` in magnitude. -/
def floatResult (q : ℚ) : Except Fault ℚ :=
  if |roundFloat q| < 2 ^ 128 then Except.ok (roundFloat q)
  else Except.error Fault.floatToIntUndefined

/-- Float division `a / b`; by zero the result is an infinity or a NaN. -/
def fdiv (a b : ℚ) : Except Fault ℚ :=
  if b = 0 then Except.error Fault.floatToIntUndefined else floatResult (a / b)

/-- Float multiplication `a * b`. -/
def fmul (a b : ℚ) : Except Fault ℚ := floatResult (a * b)

/-- Float subtraction `a - b`. -/
def fsub (a b : ℚ) : Except Fault ℚ := floatResult (a - b)

/-- Conversion `float(n)` of an integer. -/
def floatOfInt (n : Int) : ℚ := roundFloat n

def INT_MIN : Int := -2 ^ 31

def INT_MAX : Int := 2 ^ 31 - 1

/-- Conversion `static_cast<int>(f)` of a finite float: truncation toward
zero, undefined when the truncated value is not an `int`. -/
def static_cast_int (q : ℚ) : Except Fault Int :=
  if INT_MIN ≤ truncToInt q ∧ truncToInt q ≤ INT_MAX then Except.ok (truncToInt q)
  else Except.error Fault.floatToIntUndefined

/-- An address; `NULL` is `0`. -/
abbrev Pointer := Nat

/-- The null pointer. -/
def NULL : Pointer := 0

abbrev EGLDisplay := Nat
abbrev EGLSurface := Nat
abbrev EGLContext := Nat
abbrev EGLConfig := Nat

def EGL_NO_DISPLAY : EGLDisplay := 0
def EGL_NO_SURFACE : EGLSurface := 0
def EGL_NO_CONTEXT : EGLContext := 0
def EGL_DEFAULT_DISPLAY : Nat := 0

/-- Severity of a logger line. -/
inductive LogLevel where
  | Info
  | Warning
  | Error
  | Debug
  deriving DecidableEq

/-- Capabilities handed to `glEnable` / `glDisable`. -/
inductive GLCap where
  | GL_DEPTH_TEST
  | GL_BLEND
  deriving DecidableEq

/-- One call made by the manager to a collaborator outside the class. -/
inductive Call where
  | glViewport (x y width height : Int)
  | glewInit
  | glDisable (cap : GLCap)
  | glColor4f (r g b a : ℚ)
  | wglGetProcAddress (name : String)
  | wglGetExtensionsStringEXT
  | wglSwapIntervalEXT (fn : Pointer) (interval : Int)
  | eglGetDisplay (id : Nat)
  | eglInitialize (display : EGLDisplay)
  | eglChooseConfig (display : EGLDisplay)
  | eglGetConfigAttrib (display : EGLDisplay) (config : EGLConfig)
  | ANativeWindow_setBuffersGeometry (window : Pointer) (width height format : Int)
  | eglCreateWindowSurface (display : EGLDisplay) (config : EGLConfig) (window : Pointer)
  | eglCreateContext (display : EGLDisplay) (config : EGLConfig)
  | eglMakeCurrent (display : EGLDisplay) (draw read : EGLSurface) (context : EGLContext)
  | eglQuerySurfaceWidth (display : EGLDisplay) (surface : EGLSurface)
  | eglQuerySurfaceHeight (display : EGLDisplay) (surface : EGLSurface)
  | eglDestroyContext (display : EGLDisplay) (context : EGLContext)
  | eglDestroySurface (display : EGLDisplay) (surface : EGLSurface)
  | eglTerminate (display : EGLDisplay)
  | SpriteBatchCleanUp
  deriving DecidableEq

/-- The fields of `GraphicsManager`. -/
structure GraphicsManager where
  mViewProjectionMatrix : mat4x4
  mViewInverseMatrix : mat4x4
  mProjectionMatrix : mat4x4
  mScreenResolution : vec2
  mViewportResolution : vec2
  mbHasWindowChanged : Bool
  mIsInitialized : Bool
  mWglSwapIntervalEXT : Pointer
  mWglGetSwapIntervalEXT : Pointer
  mDisplay : EGLDisplay
  mSurface : EGLSurface
  mContext : EGLContext

/-- The manager together with what it has asked of its collaborators. -/
structure World where
  gm : GraphicsManager
  calls : List Call
  log : List (LogLevel × String)

/-- `Logger::GetInstance()->Log(level, message)`. -/
def Log (level : LogLevel) (message : String) (s : World) : World :=
  { s with log := s.log ++ [(level, message)] }

/-- A call to a GL / WGL / EGL entry point, appended to the trace. -/
def emit (c : Call) (s : World) : World :=
  { s with calls := s.calls ++ [c] }

/-- `GraphicsManager::GraphicsManager()`: the member initialiser list. The
matrices are default constructed (the identity); the EGL handles, which the
list does not name, start at their sentinels. -/
def GraphicsManager.new : GraphicsManager :=
  { mViewProjectionMatrix := 1
    mViewInverseMatrix := 1
    mProjectionMatrix := 1
    mScreenResolution := ⟨0, 0⟩
    mViewportResolution := ⟨0, 0⟩
    mbHasWindowChanged := false
    mIsInitialized := false
    mWglSwapIntervalEXT := NULL
    mWglGetSwapIntervalEXT := NULL
    mDisplay := EGL_NO_DISPLAY
    mSurface := EGL_NO_SURFACE
    mContext := EGL_NO_CONTEXT }

/-- The world right after the constructor ran: the constructor logs one
line and calls nothing. -/
def World.fresh : World :=
  Log LogLevel.Info "Graphics Manager : Constructor"
    { gm := GraphicsManager.new, calls := [], log := [] }

/-! ## Accessors -/

def GetWindowResolution (g : GraphicsManager) : vec2 := g.mScreenResolution

def GetViewportResolution (g : GraphicsManager) : vec2 := g.mViewportResolution

def GetHasWindowChanged (g : GraphicsManager) : Bool := g.mbHasWindowChanged

def GetViewProjectionMatrix (g : GraphicsManager) : mat4x4 := g.mViewProjectionMatrix

def GetProjectionMatrix (g : GraphicsManager) : mat4x4 := g.mProjectionMatrix

def GetViewInverseMatrix (g : GraphicsManager) : mat4x4 := g.mViewInverseMatrix

/-! ## Viewport -/

/-- `GraphicsManager::CalculateViewPort`. -/
def CalculateViewPort (s : World) : Except Fault World :=
  let screenRes := GetWindowResolution s.gm
  if screenRes.x > screenRes.y then do
    let height := screenRes.y
    let aspectRatio ← fdiv screenRes.x screenRes.y
    let width ← fmul height aspectRatio
    let xOffset ← static_cast_int (← fdiv (← fsub screenRes.x width) 2)
    let yOffset : Int := 0
    let s := emit (Call.glViewport xOffset yOffset (← static_cast_int width)
      (← static_cast_int height)) s
    pure { s with gm := { s.gm with mViewportResolution := ⟨width, height⟩ } }
  else do
    let width := screenRes.x
    let aspectRatio ← fdiv screenRes.y screenRes.x
    let height ← fmul width aspectRatio
    let xOffset : Int := 0
    let yOffset ← static_cast_int (← fdiv (← fsub screenRes.y height) 2)
    let s := emit (Call.glViewport xOffset yOffset (← static_cast_int width)
      (← static_cast_int height)) s
    pure { s with gm := { s.gm with mViewportResolution := ⟨width, height⟩ } }

/-- The values that `CalculateViewPort` computes before it calls
`glViewport`: the offsets, the float width and height, and the two sizes
converted to `int`. -/
structure ViewportValues where
  xOffset : Int
  yOffset : Int
  width : ℚ
  height : ℚ
  widthInt : Int
  heightInt : Int

/-- The computation of `CalculateViewPort` on its own, as a function of the
screen resolution; `CalculateViewPort_eq` shows that `CalculateViewPort` is
this computation followed by the call of `glViewport` and the store. -/
def viewportValues (screenRes : vec2) : Except Fault ViewportValues :=
  if screenRes.x > screenRes.y then do
    let height := screenRes.y
    let aspectRatio ← fdiv screenRes.x screenRes.y
    let width ← fmul height aspectRatio
    let xOffset ← static_cast_int (← fdiv (← fsub screenRes.x width) 2)
    pure ⟨xOffset, 0, width, height, ← static_cast_int width, ← static_cast_int height⟩
  else do
    let width := screenRes.x
    let aspectRatio ← fdiv screenRes.y screenRes.x
    let height ← fmul width aspectRatio
    let yOffset ← static_cast_int (← fdiv (← fsub screenRes.y height) 2)
    pure ⟨0, yOffset, width, height, ← static_cast_int width, ← static_cast_int height⟩

/-- The call of `glViewport` and the store of `CalculateViewPort`. -/
def applyViewport (s : World) (v : ViewportValues) : World :=
  { gm := { s.gm with mViewportResolution := ⟨v.width, v.height⟩ }
    calls := s.calls ++ [Call.glViewport v.xOffset v.yOffset v.widthInt v.heightInt]
    log := s.log }

/-- `GraphicsManager::SetWindowDimensions`. -/
def SetWindowDimensions (width height : Int) (s : World) : Except Fault World :=
  let s := { s with gm := { s.gm with
    mScreenResolution := ⟨floatOfInt width, floatOfInt height⟩ } }
  CalculateViewPort s

/-- `GraphicsManager::SetHasWindowChanged`. -/
def SetHasWindowChanged (isTrue : Bool) (s : World) : Except Fault World :=
  let s := { s with gm := { s.gm with mbHasWindowChanged := isTrue } }
  if isTrue then CalculateViewPort s else Except.ok s

/-- A freshly constructed manager whose screen resolution is `(w, h)`. -/
def fixtureWorld (w h : ℚ) : World :=
  { World.fresh with gm := { World.fresh.gm with mScreenResolution := ⟨w, h⟩ } }

/-! ## Per-frame camera snapshot -/

/-- Modelled from the spec: `CameraComponent` (not in the sources at hand),
which exposes `GetProjection() -> 4x4 matrix` and
`GetViewInverse() -> 4x4 matrix`. -/
structure CameraComponent where
  projection : mat4x4
  viewInverse : mat4x4

def CameraComponent.GetProjection (c : CameraComponent) : mat4x4 := c.projection

def CameraComponent.GetViewInverse (c : CameraComponent) : mat4x4 := c.viewInverse

/-- Modelled from the spec: the scene object returned by
`GetActiveCamera()`, whose `GetComponent<CameraComponent>()` yields its
camera component. -/
structure BaseCamera where
  cameraComponent : CameraComponent

def BaseCamera.GetComponent (o : BaseCamera) : CameraComponent := o.cameraComponent

/-- Modelled from the spec: a scene, `Scene.GetActiveCamera() -> optional
SceneObject`. -/
structure BaseScene where
  activeCamera : Option BaseCamera

def BaseScene.GetActiveCamera (sc : BaseScene) : Option BaseCamera := sc.activeCamera

/-- Modelled from the spec: the scene manager singleton,
`GetActiveScene() -> optional Scene`. -/
structure SceneManager where
  activeScene : Option BaseScene

def SceneManager.GetActiveScene (sm : SceneManager) : Option BaseScene := sm.activeScene

/-- `GraphicsManager::Update`; `sm` is `SceneManager::GetInstance()`. -/
def Update (sm : SceneManager) (s : World) : World :=
  match sm.GetActiveScene with
  | some scene =>
    let projectionObject := scene.GetActiveCamera
    match projectionObject with
    | some camera =>
      let projection := camera.GetComponent.GetProjection
      let viewInverse := camera.GetComponent.GetViewInverse
      { s with gm := { s.gm with
          mProjectionMatrix := projection
          mViewInverseMatrix := viewInverse
          mViewProjectionMatrix := projection * viewInverse } }
    | none => s
  | none => s

/-- A scaling projection used as a fixture. -/
def fixtureProjection : mat4x4 :=
  Matrix.of ![![2, 0, 0, 0], ![0, 3, 0, 0], ![0, 0, 4, 0], ![0, 0, 0, 1]]

/-- A translation used as a view-inverse fixture. -/
def fixtureViewInverse : mat4x4 :=
  Matrix.of ![![1, 0, 0, 5], ![0, 1, 0, 6], ![0, 0, 1, 7], ![0, 0, 0, 1]]

/-- A scene manager whose active scene has the fixture camera. -/
def fixtureSceneManager : SceneManager :=
  { activeScene := some
      { activeCamera := some
          { cameraComponent :=
              { projection := fixtureProjection, viewInverse := fixtureViewInverse } } } }

/-! ## Desktop (`#ifdef DESKTOP`) -/

namespace Desktop

/-- The WGL driver as the manager sees it: what `wglGetProcAddress`
answers for a name (`NULL` when the entry point is absent) and the
extension list that the function behind `wglGetExtensionsStringEXT`
returns. -/
structure WGLDriver where
  procAddress : String → Pointer
  extensions : String

/-- C `strstr` on character lists: the tail of `haystack` that starts at
the first occurrence of `needle`, `none` for `NULL`. -/
def strstr : List Char → List Char → Option (List Char)
  | [], needle => if needle.isEmpty then some [] else none
  | c :: cs, needle =>
    if needle.isPrefixOf (c :: cs) then some (c :: cs) else strstr cs needle

/-- `GraphicsManager::WGLExtensionSupported`. The function pointer that
`wglGetProcAddress` returns is called without a check. -/
def WGLExtensionSupported (driver : WGLDriver) (extension_name : String) (s : World) :
    Except Fault (Bool × World) :=
  let s := emit (Call.wglGetProcAddress "wglGetExtensionsStringEXT") s
  let _wglGetExtensionsStringEXT := driver.procAddress "wglGetExtensionsStringEXT"
  if _wglGetExtensionsStringEXT = NULL then
    Except.error Fault.nullFunctionPointerCall
  else
    let s := emit Call.wglGetExtensionsStringEXT s
    if (strstr driver.extensions.data extension_name.data).isNone then
      Except.ok (false, s)
    else
      Except.ok (true, s)

/-- `GraphicsManager::InitializeOpenGLFunctors`. -/
def InitializeOpenGLFunctors (driver : WGLDriver) (s : World) : Except Fault (Bool × World) :=
  match WGLExtensionSupported driver "WGL_EXT_swap_control" s with
  | Except.error e => Except.error e
  | Except.ok (true, s) =>
    let s := emit (Call.wglGetProcAddress "wglSwapIntervalEXT") s
    let s := { s with gm := { s.gm with
      mWglSwapIntervalEXT := driver.procAddress "wglSwapIntervalEXT" } }
    let s := emit (Call.wglGetProcAddress "wglGetSwapIntervalEXT") s
    let s := { s with gm := { s.gm with
      mWglGetSwapIntervalEXT := driver.procAddress "wglGetSwapIntervalEXT" } }
    Except.ok (true, s)
  | Except.ok (false, s) => Except.ok (false, s)

/-- The expression `mWglSwapIntervalEXT(interval)`: a call through the
cached pointer, whatever its value. -/
def callSwapIntervalEXT (interval : Int) (s : World) : Except Fault World :=
  if s.gm.mWglSwapIntervalEXT = NULL then
    Except.error Fault.nullFunctionPointerCall
  else
    Except.ok (emit (Call.wglSwapIntervalEXT s.gm.mWglSwapIntervalEXT interval) s)

/-- `GraphicsManager::SetVSync`, desktop branch. -/
def SetVSync (vSync : Bool) (s : World) : Except Fault World :=
  if !vSync then
    callSwapIntervalEXT 0 s
  else
    callSwapIntervalEXT 1 s

/-- `GraphicsManager::Initialize(int32 screenWidth, int32 screenHeight)`. -/
def Initialize (driver : WGLDriver) (screenWidth screenHeight : Int) (s : World) :
    Except Fault World :=
  if !s.gm.mIsInitialized then
    let s := { s with gm := { s.gm with
      mScreenResolution := ⟨floatOfInt screenWidth, floatOfInt screenHeight⟩ } }
    let s := emit Call.glewInit s
    let s := Log LogLevel.Info "Graphics Manager : Initializing OpenGL Functors" s
    match InitializeOpenGLFunctors driver s with
    | Except.error e => Except.error e
    | Except.ok (supported, s) =>
      let s :=
        if !supported then
          Log LogLevel.Error "Graphics Manager : Graphics card doesn't support VSync option!!" s
        else s
      match SetVSync true s with
      | Except.error e => Except.error e
      | Except.ok s =>
        let s := emit (Call.glDisable GLCap.GL_DEPTH_TEST) s
        let s := emit (Call.glColor4f 1 1 1 1) s
        Except.ok { s with gm := { s.gm with mIsInitialized := true } }
  else
    Except.ok s

/-! ### Fixtures -/

/-- A driver that resolves the three entry points and lists
`WGL_EXT_swap_control`. -/
def driverVSync : WGLDriver :=
  { procAddress := fun name =>
      if name = "wglGetExtensionsStringEXT" then 100
      else if name = "wglSwapIntervalEXT" then 101
      else if name = "wglGetSwapIntervalEXT" then 102
      else NULL
    extensions := "WGL_ARB_extensions_string WGL_EXT_swap_control" }

/-- A driver that answers the extension query and does not list
`WGL_EXT_swap_control`. -/
def driverNoVSync : WGLDriver :=
  { driverVSync with extensions := "WGL_ARB_extensions_string WGL_ARB_pixel_format" }

end Desktop

/-! ## Mobile (`#else`: EGL) -/

namespace Mobile

/-- The `android_app` handed to `Initialize`; only its `window` is read. -/
structure android_app where
  window : Pointer

/-- What EGL answers during one run of `Initialize`: the handle or the
`EGLBoolean` each entry point returns and the values it writes through its
out-parameters. Every step is free to succeed or fail. -/
structure EGL where
  eglGetDisplay : EGLDisplay
  eglInitialize : Bool
  eglChooseConfig : Bool
  lConfig : EGLConfig
  lNumConfigs : Int
  eglGetConfigAttrib : Bool
  lFormat : Int
  eglCreateWindowSurface : EGLSurface
  eglCreateContext : EGLContext
  eglMakeCurrent : Bool
  eglQuerySurfaceWidth : Bool
  sX : Int
  eglQuerySurfaceHeight : Bool
  sY : Int

/-- `GraphicsManager::Initialize(const android_app* pApplication)`. The
`||` chains are short-circuit: a call is made only when the ones before it
succeeded. -/
def Initialize (egl : EGL) (pApplication : android_app) (s : World) : World :=
  if !s.gm.mIsInitialized then
    let s := Log LogLevel.Info "Graphics Manager : Initialize" s
    let s := emit (Call.eglGetDisplay EGL_DEFAULT_DISPLAY) s
    let s := { s with gm := { s.gm with mDisplay := egl.eglGetDisplay } }
    if s.gm.mDisplay = EGL_NO_DISPLAY then
      Log LogLevel.Error "Graphics Manager : No display found" s
    else
    let s := emit (Call.eglInitialize s.gm.mDisplay) s
    if !egl.eglInitialize then
      Log LogLevel.Error "Graphics Manager : Could not initialize display" s
    else
    let s := emit (Call.eglChooseConfig s.gm.mDisplay) s
    if !egl.eglChooseConfig || egl.lNumConfigs ≤ 0 then
      Log LogLevel.Error "Graphics Manager : No display config" s
    else
    let s := emit (Call.eglGetConfigAttrib s.gm.mDisplay egl.lConfig) s
    if !egl.eglGetConfigAttrib then
      Log LogLevel.Error "Graphics Manager : No config attributes" s
    else
    let s := emit (Call.ANativeWindow_setBuffersGeometry pApplication.window 0 0 egl.lFormat) s
    let s := emit (Call.eglCreateWindowSurface s.gm.mDisplay egl.lConfig pApplication.window) s
    let s := { s with gm := { s.gm with mSurface := egl.eglCreateWindowSurface } }
    if s.gm.mSurface = EGL_NO_SURFACE then
      Log LogLevel.Error "Graphics Manager : Could not create surface" s
    else
    let s := emit (Call.eglCreateContext s.gm.mDisplay egl.lConfig) s
    let s := { s with gm := { s.gm with mContext := egl.eglCreateContext } }
    if s.gm.mContext = EGL_NO_CONTEXT then
      Log LogLevel.Error "Graphics Manager : Could not create context" s
    else
    let s := emit (Call.eglMakeCurrent s.gm.mDisplay s.gm.mSurface s.gm.mSurface s.gm.mContext) s
    if !egl.eglMakeCurrent then
      Log LogLevel.Error "Graphics Manager : Could not activate display" s
    else
    let s := emit (Call.eglQuerySurfaceWidth s.gm.mDisplay s.gm.mSurface) s
    if !egl.eglQuerySurfaceWidth then
      Log LogLevel.Error "Graphics Manager : Could not activate display" s
    else
    let s := emit (Call.eglQuerySurfaceHeight s.gm.mDisplay s.gm.mSurface) s
    if !egl.eglQuerySurfaceHeight then
      Log LogLevel.Error "Graphics Manager : Could not activate display" s
    else
    if egl.sX ≤ 0 || egl.sY ≤ 0 then
      Log LogLevel.Error "Graphics Manager : Could not activate display" s
    else
    let s := { s with gm := { s.gm with mViewportResolution := ⟨(egl.sX : ℚ), (egl.sY : ℚ)⟩ } }
    let s := { s with gm := { s.gm with mScreenResolution := s.gm.mViewportResolution } }
    let s := emit (Call.glViewport 0 0 (truncToInt s.gm.mViewportResolution.x)
      (truncToInt s.gm.mViewportResolution.y)) s
    let s := Log LogLevel.Info "Graphics Manager : Initialized" s
    { s with gm := { s.gm with mIsInitialized := true } }
  else
    s

/-- `GraphicsManager::Destroy`. -/
def Destroy (s : World) : World :=
  let s := Log LogLevel.Info "Graphics Manager : Destroy" s
  if s.gm.mDisplay ≠ EGL_NO_DISPLAY then
    let s := emit (Call.eglMakeCurrent s.gm.mDisplay EGL_NO_SURFACE EGL_NO_SURFACE EGL_NO_CONTEXT) s
    let s :=
      if s.gm.mContext ≠ EGL_NO_CONTEXT then
        let s := emit (Call.eglDestroyContext s.gm.mDisplay s.gm.mContext) s
        { s with gm := { s.gm with mContext := EGL_NO_CONTEXT } }
      else s
    let s :=
      if s.gm.mSurface ≠ EGL_NO_SURFACE then
        let s := emit (Call.eglDestroySurface s.gm.mDisplay s.gm.mSurface) s
        { s with gm := { s.gm with mSurface := EGL_NO_SURFACE } }
      else s
    let s := emit (Call.eglTerminate s.gm.mDisplay) s
    let s := { s with gm := { s.gm with mDisplay := EGL_NO_DISPLAY } }
    let s := Log LogLevel.Info "Graphics Manager : Destroyed" s
    let s := emit Call.SpriteBatchCleanUp s
    { s with gm := { s.gm with mIsInitialized := false } }
  else
    s

/-- `GraphicsManager::SetVSync`, mobile branch: a warning and nothing else. -/
def SetVSync (_vSync : Bool) (s : World) : World :=
  Log LogLevel.Warning
    "Setting VSync on mobile is not supported. Default VSync is enabled" s

/-- A lifecycle call made by the application on the mobile manager. -/
inductive Op where
  | init (egl : EGL) (pApplication : android_app)
  | destroy

/-- Runs lifecycle calls in order. -/
def run : List Op → World → World
  | [], s => s
  | Op.init egl app :: ops, s => run ops (Initialize egl app s)
  | Op.destroy :: ops, s => run ops (Destroy s)

/-- Every EGL step of `Initialize` succeeds: a display, an initialised
display, a configuration, its native visual id, a window surface, a context,
and a current surface whose queried width and height are positive. -/
def EGL.allSucceed (egl : EGL) : Prop :=
  egl.eglGetDisplay ≠ EGL_NO_DISPLAY ∧
  egl.eglInitialize = true ∧
  (egl.eglChooseConfig = true ∧ 0 < egl.lNumConfigs) ∧
  egl.eglGetConfigAttrib = true ∧
  egl.eglCreateWindowSurface ≠ EGL_NO_SURFACE ∧
  egl.eglCreateContext ≠ EGL_NO_CONTEXT ∧
  (egl.eglMakeCurrent = true ∧ egl.eglQuerySurfaceWidth = true ∧
    egl.eglQuerySurfaceHeight = true ∧ 0 < egl.sX ∧ 0 < egl.sY)

instance (egl : EGL) : Decidable egl.allSucceed := by
  unfold EGL.allSucceed
  infer_instance

/-- One of the EGL steps of `Initialize` fails: get display, initialize
display, choose config, get native visual id, create window surface, create
context, or make current / query a positive surface width and height. -/
def EGL.someStepFails (egl : EGL) : Prop :=
  egl.eglGetDisplay = EGL_NO_DISPLAY ∨
  egl.eglInitialize = false ∨
  (egl.eglChooseConfig = false ∨ egl.lNumConfigs ≤ 0) ∨
  egl.eglGetConfigAttrib = false ∨
  egl.eglCreateWindowSurface = EGL_NO_SURFACE ∨
  egl.eglCreateContext = EGL_NO_CONTEXT ∨
  (egl.eglMakeCurrent = false ∨ egl.eglQuerySurfaceWidth = false ∨
    egl.eglQuerySurfaceHeight = false ∨ egl.sX ≤ 0 ∨ egl.sY ≤ 0)

instance (egl : EGL) : Decidable egl.someStepFails := by
  unfold EGL.someStepFails
  infer_instance

/-- The calls of one run of the whole chain, first step to last, when every
step succeeds. -/
def chainCalls (egl : EGL) (pApplication : android_app) : List Call :=
  [ Call.eglGetDisplay EGL_DEFAULT_DISPLAY,
    Call.eglInitialize egl.eglGetDisplay,
    Call.eglChooseConfig egl.eglGetDisplay,
    Call.eglGetConfigAttrib egl.eglGetDisplay egl.lConfig,
    Call.ANativeWindow_setBuffersGeometry pApplication.window 0 0 egl.lFormat,
    Call.eglCreateWindowSurface egl.eglGetDisplay egl.lConfig pApplication.window,
    Call.eglCreateContext egl.eglGetDisplay egl.lConfig,
    Call.eglMakeCurrent egl.eglGetDisplay egl.eglCreateWindowSurface
      egl.eglCreateWindowSurface egl.eglCreateContext,
    Call.eglQuerySurfaceWidth egl.eglGetDisplay egl.eglCreateWindowSurface,
    Call.eglQuerySurfaceHeight egl.eglGetDisplay egl.eglCreateWindowSurface,
    Call.glViewport 0 0 egl.sX egl.sY ]

/-! ### Fixtures -/

/-- An EGL on which every step succeeds, with a `480 x 800` surface. -/
def eglGood : EGL :=
  { eglGetDisplay := 1, eglInitialize := true, eglChooseConfig := true, lConfig := 4,
    lNumConfigs := 1, eglGetConfigAttrib := true, lFormat := 4, eglCreateWindowSurface := 2,
    eglCreateContext := 3, eglMakeCurrent := true, eglQuerySurfaceWidth := true, sX := 480,
    eglQuerySurfaceHeight := true, sY := 800 }

/-- An EGL with no display. -/
def eglNoDisplay : EGL := { eglGood with eglGetDisplay := EGL_NO_DISPLAY }

/-- An EGL on which the context cannot be created. -/
def eglNoContext : EGL := { eglGood with eglCreateContext := EGL_NO_CONTEXT }

/-- A native application with a window. -/
def fixtureApp : android_app := { window := 9 }

end Mobile

end star

/-! ## Theorems -/

namespace star

/-! ### Helper lemmas -/

@[simp] theorem emit_gm (c : Call) (s : World) : (emit c s).gm = s.gm := rfl

@[simp] theorem emit_calls (c : Call) (s : World) : (emit c s).calls = s.calls ++ [c] := rfl

@[simp] theorem emit_log (c : Call) (s : World) : (emit c s).log = s.log := rfl

@[simp] theorem Log_gm (l : LogLevel) (m : String) (s : World) : (Log l m s).gm = s.gm := rfl

@[simp] theorem Log_calls (l : LogLevel) (m : String) (s : World) :
    (Log l m s).calls = s.calls := rfl

@[simp] theorem Log_log (l : LogLevel) (m : String) (s : World) :
    (Log l m s).log = s.log ++ [(l, m)] := rfl

theorem truncToInt_intCast (n : Int) : truncToInt (n : ℚ) = n := by
  simp [truncToInt]

theorem truncToInt_zero : truncToInt 0 = 0 := by
  simp [truncToInt]

/-! ### binary32 rounding -/

theorem roundHalfEven_sub_le (x : ℚ) : |(roundHalfEven x : ℚ) - x| ≤ 1 / 2 := by
  have h1 := Int.floor_le x
  have h2 := Int.lt_floor_add_one x
  unfold roundHalfEven
  simp only
  split_ifs with ha hb hc
  · rw [abs_le]; constructor <;> linarith
  · rw [abs_le]; push_cast; constructor <;> linarith
  · rw [abs_le]; constructor <;> linarith
  · rw [abs_le]; push_cast; constructor <;> linarith

theorem roundHalfEven_eq_of (x : ℚ) (n : Int) (h1 : (n : ℚ) - 1 / 2 < x)
    (h2 : x < (n : ℚ) + 1 / 2) : roundHalfEven x = n := by
  have h := roundHalfEven_sub_le x
  rw [abs_le] at h
  have h3 : ((roundHalfEven x : Int) : ℚ) < (n : ℚ) + 1 := by linarith [h.2]
  have h4 : (n : ℚ) - 1 < ((roundHalfEven x : Int) : ℚ) := by linarith [h.1]
  have h5 : roundHalfEven x < n + 1 := by exact_mod_cast h3
  have h6 : n - 1 < roundHalfEven x := by exact_mod_cast h4
  omega

theorem roundHalfEven_intCast (n : Int) : roundHalfEven (n : ℚ) = n :=
  roundHalfEven_eq_of _ n (by linarith) (by linarith)

theorem abs_roundHalfEven_le (x : ℚ) : |(roundHalfEven x : ℚ)| ≤ 2 * |x| := by
  have h := roundHalfEven_sub_le x
  by_cases h0 : roundHalfEven x = 0
  · rw [h0]; simp
  · have h1 : (1 : ℚ) ≤ |(roundHalfEven x : ℚ)| := by
      have : (1 : Int) ≤ |roundHalfEven x| := Int.one_le_abs h0
      exact_mod_cast this
    have h2 : |(roundHalfEven x : ℚ)| - |x| ≤ |(roundHalfEven x : ℚ) - x| :=
      abs_sub_abs_le_abs_sub _ _
    linarith

theorem two_zpow_pos (e : Int) : (0 : ℚ) < 2 ^ e := zpow_pos (by norm_num) e

theorem abs_roundFloat_le (q : ℚ) : |roundFloat q| ≤ 2 * |q| := by
  unfold roundFloat
  have hp := two_zpow_pos (ulpExponent q)
  rw [abs_mul, abs_of_pos hp]
  have h := abs_roundHalfEven_le (q / 2 ^ ulpExponent q)
  rw [abs_div, abs_of_pos hp] at h
  calc |(roundHalfEven (q / 2 ^ ulpExponent q) : ℚ)| * 2 ^ ulpExponent q
      ≤ 2 * (|q| / 2 ^ ulpExponent q) * 2 ^ ulpExponent q :=
        mul_le_mul_of_nonneg_right h hp.le
    _ = 2 * |q| := by field_simp

theorem roundFloat_zero : roundFloat 0 = 0 := by
  have h := abs_roundFloat_le 0
  simpa using h

/-- The exponent of the grid at a value of the normal range. -/
theorem ulpExponent_eq_of (q : ℚ) (e : Int) (h1 : (2 : ℚ) ^ e ≤ |q|)
    (h2 : |q| < 2 ^ (e + 1)) (h3 : -126 ≤ e) : ulpExponent q = e - 23 := by
  have hq : 0 < |q| := lt_of_lt_of_le (two_zpow_pos e) h1
  have hlog : Int.log 2 |q| = e := by
    apply le_antisymm
    · have := (Int.lt_zpow_iff_log_lt (b := 2) (by norm_num) hq).mp (by exact_mod_cast h2)
      omega
    · exact (Int.zpow_le_iff_le_log (b := 2) (by norm_num) hq).mp (by exact_mod_cast h1)
  unfold ulpExponent
  rw [hlog]
  omega

/-- Evaluating `roundFloat` at a value of the normal range: `2 ^ e ≤ |q| <
2 ^ (e + 1)` and `n` is the integer nearest to `q / 2 ^ (e - 23)`. -/
theorem roundFloat_eq_of (q : ℚ) (e n : Int) (h1 : (2 : ℚ) ^ e ≤ |q|)
    (h2 : |q| < 2 ^ (e + 1)) (h3 : -126 ≤ e)
    (h4 : (n : ℚ) - 1 / 2 < q / 2 ^ (e - 23)) (h5 : q / 2 ^ (e - 23) < (n : ℚ) + 1 / 2) :
    roundFloat q = n * 2 ^ (e - 23) := by
  unfold roundFloat
  rw [ulpExponent_eq_of q e h1 h2 h3, roundHalfEven_eq_of _ n h4 h5]

/-- In the normal range rounding moves a value by at most `2 ^ (-24)` of
its magnitude. -/
theorem abs_roundFloat_sub_le (q : ℚ) (hq : (2 : ℚ) ^ (-126 : Int) ≤ |q|) :
    |roundFloat q - q| ≤ |q| / 2 ^ 24 := by
  have hpos : 0 < |q| := lt_of_lt_of_le (two_zpow_pos _) hq
  have hlog1 : (2 : ℚ) ^ Int.log 2 |q| ≤ |q| := by
    have := Int.zpow_log_le_self (b := 2) (r := |q|) (by norm_num) hpos
    exact_mod_cast this
  have hlog2 : -126 ≤ Int.log 2 |q| :=
    (Int.zpow_le_iff_le_log (b := 2) (by norm_num) hpos).mp (by exact_mod_cast hq)
  have hu : ulpExponent q = Int.log 2 |q| - 23 := by
    unfold ulpExponent
    omega
  unfold roundFloat
  rw [hu]
  set u := Int.log 2 |q| - 23 with hudef
  have hp := two_zpow_pos u
  have h := roundHalfEven_sub_le (q / 2 ^ u)
  have e1 : (roundHalfEven (q / 2 ^ u) : ℚ) * 2 ^ u - q =
      ((roundHalfEven (q / 2 ^ u) : ℚ) - q / 2 ^ u) * 2 ^ u := by field_simp
  rw [e1, abs_mul, abs_of_pos hp]
  have e2 : (2 : ℚ) ^ Int.log 2 |q| = 2 ^ u * 2 ^ 23 := by
    rw [hudef, zpow_sub₀ (by norm_num)]
    norm_num
  calc |(roundHalfEven (q / 2 ^ u) : ℚ) - q / 2 ^ u| * 2 ^ u
      ≤ 1 / 2 * 2 ^ u := mul_le_mul_of_nonneg_right h hp.le
    _ = 2 ^ Int.log 2 |q| / 2 ^ 24 := by rw [e2]; ring
    _ ≤ |q| / 2 ^ 24 := by
        apply div_le_div_of_nonneg_right hlog1
        norm_num

theorem truncToInt_of_nonneg (q : ℚ) (h : 0 ≤ q) : truncToInt q = ⌊q⌋ := by
  unfold truncToInt
  rw [Rat.floor_def, Int.tdiv_eq_ediv (Rat.num_nonneg.mpr h) (by exact_mod_cast Nat.zero_le _)]

theorem truncToInt_neg (q : ℚ) : truncToInt (-q) = -truncToInt q := by
  unfold truncToInt
  simp [Int.neg_tdiv]

theorem abs_truncToInt_le (q : ℚ) : |(truncToInt q : ℚ)| ≤ |q| := by
  rcases le_total 0 q with h | h
  · rw [truncToInt_of_nonneg q h, abs_of_nonneg h,
      abs_of_nonneg (by exact_mod_cast Int.floor_nonneg.mpr h)]
    exact Int.floor_le q
  · have h' : 0 ≤ -q := by linarith
    have e : truncToInt q = -truncToInt (-q) := by rw [truncToInt_neg]; simp
    rw [e, truncToInt_of_nonneg _ h', abs_of_nonpos h]
    push_cast
    rw [abs_neg, abs_of_nonneg (by exact_mod_cast Int.floor_nonneg.mpr h')]
    exact Int.floor_le (-q)

theorem truncToInt_eq_of (q : ℚ) (n : Int) (h1 : (n : ℚ) ≤ q) (h2 : q < (n : ℚ) + 1)
    (h0 : 0 ≤ q) : truncToInt q = n := by
  rw [truncToInt_of_nonneg q h0, Int.floor_eq_iff]
  exact ⟨h1, h2⟩

/-- Below `2 ^ 31` in magnitude the conversion to `int` is defined. -/
theorem static_cast_int_ok (q : ℚ) (h : |q| < 2 ^ 31) :
    static_cast_int q = Except.ok (truncToInt q) := by
  have h1 := abs_truncToInt_le q
  have h2 : |(truncToInt q : ℚ)| < 2 ^ 31 := lt_of_le_of_lt h1 h
  have h3 : |truncToInt q| < 2 ^ 31 := by exact_mod_cast h2
  rw [abs_lt] at h3
  unfold static_cast_int INT_MIN INT_MAX
  rw [if_pos]
  constructor <;> omega

/-- An exact result below `2 ^ 127` in magnitude rounds to a finite float. -/
theorem floatResult_ok (q : ℚ) (h : |q| < 2 ^ 127) :
    floatResult q = Except.ok (roundFloat q) := by
  unfold floatResult
  rw [if_pos]
  have := abs_roundFloat_le q
  linarith

example : roundFloat (640 / 610) = 4400581 / 4194304 := by
  rw [roundFloat_eq_of (640 / 610) 0 8801162 (by norm_num [abs_of_pos]) (by norm_num [abs_of_pos]) (by norm_num)
    (by norm_num) (by norm_num)]
  norm_num

example : roundFloat (610 * (4400581 / 4194304)) = 10485759 / 16384 := by
  rw [roundFloat_eq_of _ 9 10485759 (by norm_num [abs_of_pos]) (by norm_num [abs_of_pos]) (by norm_num)
    (by norm_num) (by norm_num)]
  norm_num

/-! ### `CalculateViewPort` -/

/-- `CalculateViewPort` is `viewportValues` on the screen resolution,
followed by the call of `glViewport` and the store. -/
theorem CalculateViewPort_eq (s : World) :
    CalculateViewPort s = (viewportValues s.gm.mScreenResolution).map (applyViewport s) := by
  unfold CalculateViewPort viewportValues
  simp only [GetWindowResolution]
  split
  · simp only [bind, Except.bind, pure, Except.pure]
    cases fdiv s.gm.mScreenResolution.x s.gm.mScreenResolution.y with
    | error e => rfl
    | ok r =>
      simp only
      cases fmul s.gm.mScreenResolution.y r with
      | error e => rfl
      | ok vw =>
        simp only
        cases fsub s.gm.mScreenResolution.x vw with
        | error e => rfl
        | ok d =>
          simp only
          cases fdiv d 2 with
          | error e => rfl
          | ok d2 =>
            simp only
            cases static_cast_int d2 with
            | error e => rfl
            | ok xo =>
              simp only
              cases static_cast_int vw with
              | error e => rfl
              | ok iw =>
                simp only
                cases static_cast_int s.gm.mScreenResolution.y with
                | error e => rfl
                | ok ih => rfl
  · simp only [bind, Except.bind, pure, Except.pure]
    cases fdiv s.gm.mScreenResolution.y s.gm.mScreenResolution.x with
    | error e => rfl
    | ok r =>
      simp only
      cases fmul s.gm.mScreenResolution.x r with
      | error e => rfl
      | ok vh =>
        simp only
        cases fsub s.gm.mScreenResolution.y vh with
        | error e => rfl
        | ok d =>
          simp only
          cases fdiv d 2 with
          | error e => rfl
          | ok d2 =>
            simp only
            cases static_cast_int d2 with
            | error e => rfl
            | ok yo =>
              simp only
              cases static_cast_int s.gm.mScreenResolution.x with
              | error e => rfl
              | ok iw =>
                simp only
                cases static_cast_int vh with
                | error e => rfl
                | ok ih => rfl

theorem floatResult_eq_ok (q r : ℚ) (h : floatResult q = Except.ok r) : r = roundFloat q := by
  unfold floatResult at h
  split at h
  · simp only [Except.ok.injEq] at h
    exact h.symm
  · cases h

theorem fdiv_eq_ok (a b r : ℚ) (h : fdiv a b = Except.ok r) :
    b ≠ 0 ∧ r = roundFloat (a / b) := by
  unfold fdiv at h
  split at h
  · cases h
  · rename_i hb
    exact ⟨hb, floatResult_eq_ok _ _ h⟩

theorem fmul_eq_ok (a b r : ℚ) (h : fmul a b = Except.ok r) : r = roundFloat (a * b) :=
  floatResult_eq_ok _ _ h

theorem fsub_eq_ok (a b r : ℚ) (h : fsub a b = Except.ok r) : r = roundFloat (a - b) :=
  floatResult_eq_ok _ _ h

theorem fdiv_ok (a b : ℚ) (hb : b ≠ 0) (h : |a / b| < 2 ^ 127) :
    fdiv a b = Except.ok (roundFloat (a / b)) := by
  unfold fdiv
  rw [if_neg hb, floatResult_ok _ h]

theorem fmul_ok (a b : ℚ) (h : |a * b| < 2 ^ 127) :
    fmul a b = Except.ok (roundFloat (a * b)) := floatResult_ok _ h

theorem fsub_ok (a b : ℚ) (h : |a - b| < 2 ^ 127) :
    fsub a b = Except.ok (roundFloat (a - b)) := floatResult_ok _ h

/-- The wide branch of `viewportValues`, step by step. -/
theorem viewportValues_wide_of (x y r vw d d2 : ℚ) (xo iw ih : Int) (h : x > y)
    (h1 : fdiv x y = Except.ok r) (h2 : fmul y r = Except.ok vw)
    (h3 : fsub x vw = Except.ok d) (h4 : fdiv d 2 = Except.ok d2)
    (h5 : static_cast_int d2 = Except.ok xo) (h6 : static_cast_int vw = Except.ok iw)
    (h7 : static_cast_int y = Except.ok ih) :
    viewportValues ⟨x, y⟩ = Except.ok ⟨xo, 0, vw, y, iw, ih⟩ := by
  unfold viewportValues
  simp only [h, reduceIte, bind, Except.bind, pure, Except.pure, h1, h2, h3, h4, h5, h6, h7]

/-- The other branch of `viewportValues`, step by step. -/
theorem viewportValues_tall_of (x y r vh d d2 : ℚ) (yo iw ih : Int) (h : ¬ x > y)
    (h1 : fdiv y x = Except.ok r) (h2 : fmul x r = Except.ok vh)
    (h3 : fsub y vh = Except.ok d) (h4 : fdiv d 2 = Except.ok d2)
    (h5 : static_cast_int d2 = Except.ok yo) (h6 : static_cast_int x = Except.ok iw)
    (h7 : static_cast_int vh = Except.ok ih) :
    viewportValues ⟨x, y⟩ = Except.ok ⟨0, yo, x, vh, iw, ih⟩ := by
  unfold viewportValues
  simp only [h, reduceIte, bind, Except.bind, pure, Except.pure, h1, h2, h3, h4, h5, h6, h7]

/-- What a returning `viewportValues` computed in the wide branch. -/
theorem viewportValues_wide_inv (x y : ℚ) (v : ViewportValues) (h : x > y)
    (hv : viewportValues ⟨x, y⟩ = Except.ok v) :
    v.yOffset = 0 ∧ v.height = y ∧ v.width = roundFloat (y * roundFloat (x / y)) ∧
    static_cast_int (roundFloat (roundFloat (x - v.width) / 2)) = Except.ok v.xOffset ∧
    static_cast_int v.width = Except.ok v.widthInt ∧
    static_cast_int v.height = Except.ok v.heightInt := by
  unfold viewportValues at hv
  simp only [h, reduceIte, bind, Except.bind, pure, Except.pure] at hv
  rcases h1 : fdiv x y with e | r
  · rw [h1] at hv; cases hv
  rw [h1] at hv
  simp only at hv
  rcases h2 : fmul y r with e | vw
  · rw [h2] at hv; cases hv
  rw [h2] at hv
  simp only at hv
  rcases h3 : fsub x vw with e | d
  · rw [h3] at hv; cases hv
  rw [h3] at hv
  simp only at hv
  rcases h4 : fdiv d 2 with e | d2
  · rw [h4] at hv; cases hv
  rw [h4] at hv
  simp only at hv
  rcases h5 : static_cast_int d2 with e | xo
  · rw [h5] at hv; cases hv
  rw [h5] at hv
  simp only at hv
  rcases h6 : static_cast_int vw with e | iw
  · rw [h6] at hv; cases hv
  rw [h6] at hv
  simp only at hv
  rcases h7 : static_cast_int y with e | ih
  · rw [h7] at hv; cases hv
  rw [h7] at hv
  simp only [Except.ok.injEq] at hv
  subst hv
  have e1 := (fdiv_eq_ok _ _ _ h1).2
  have e2 := fmul_eq_ok _ _ _ h2
  have e3 := fsub_eq_ok _ _ _ h3
  have e4 := (fdiv_eq_ok _ _ _ h4).2
  subst e1 e2 e3 e4
  exact ⟨rfl, rfl, rfl, h5, h6, h7⟩

/-- What a returning `viewportValues` computed in the other branch. -/
theorem viewportValues_tall_inv (x y : ℚ) (v : ViewportValues) (h : ¬ x > y)
    (hv : viewportValues ⟨x, y⟩ = Except.ok v) :
    v.xOffset = 0 ∧ v.width = x ∧ v.height = roundFloat (x * roundFloat (y / x)) ∧
    static_cast_int (roundFloat (roundFloat (y - v.height) / 2)) = Except.ok v.yOffset ∧
    static_cast_int v.width = Except.ok v.widthInt ∧
    static_cast_int v.height = Except.ok v.heightInt := by
  unfold viewportValues at hv
  simp only [h, reduceIte, bind, Except.bind, pure, Except.pure] at hv
  rcases h1 : fdiv y x with e | r
  · rw [h1] at hv; cases hv
  rw [h1] at hv
  simp only at hv
  rcases h2 : fmul x r with e | vh
  · rw [h2] at hv; cases hv
  rw [h2] at hv
  simp only at hv
  rcases h3 : fsub y vh with e | d
  · rw [h3] at hv; cases hv
  rw [h3] at hv
  simp only at hv
  rcases h4 : fdiv d 2 with e | d2
  · rw [h4] at hv; cases hv
  rw [h4] at hv
  simp only at hv
  rcases h5 : static_cast_int d2 with e | yo
  · rw [h5] at hv; cases hv
  rw [h5] at hv
  simp only at hv
  rcases h6 : static_cast_int x with e | iw
  · rw [h6] at hv; cases hv
  rw [h6] at hv
  simp only at hv
  rcases h7 : static_cast_int vh with e | ih
  · rw [h7] at hv; cases hv
  rw [h7] at hv
  simp only [Except.ok.injEq] at hv
  subst hv
  have e1 := (fdiv_eq_ok _ _ _ h1).2
  have e2 := fmul_eq_ok _ _ _ h2
  have e3 := fsub_eq_ok _ _ _ h3
  have e4 := (fdiv_eq_ok _ _ _ h4).2
  subst e1 e2 e3 e4
  exact ⟨rfl, rfl, rfl, h5, h6, h7⟩

/-- For sizes between `1` and `2 ^ 24`, the chain `p / q`, `q * _`, `p - _`,
`_ / 2` of `CalculateViewPort` stays finite and its conversions to `int`
are defined. -/
theorem viewport_chain_defined (p q : ℚ) (hp : 1 ≤ p) (hp2 : p ≤ 2 ^ 24) (hq : 1 ≤ q)
    (hq2 : q ≤ 2 ^ 24) :
    fdiv p q = Except.ok (roundFloat (p / q)) ∧
    fmul q (roundFloat (p / q)) = Except.ok (roundFloat (q * roundFloat (p / q))) ∧
    fsub p (roundFloat (q * roundFloat (p / q))) =
      Except.ok (roundFloat (p - roundFloat (q * roundFloat (p / q)))) ∧
    fdiv (roundFloat (p - roundFloat (q * roundFloat (p / q)))) 2 =
      Except.ok (roundFloat (roundFloat (p - roundFloat (q * roundFloat (p / q))) / 2)) ∧
    static_cast_int (roundFloat (roundFloat (p - roundFloat (q * roundFloat (p / q))) / 2)) =
      Except.ok (truncToInt
        (roundFloat (roundFloat (p - roundFloat (q * roundFloat (p / q))) / 2))) ∧
    static_cast_int (roundFloat (q * roundFloat (p / q))) =
      Except.ok (truncToInt (roundFloat (q * roundFloat (p / q)))) ∧
    static_cast_int p = Except.ok (truncToInt p) ∧
    static_cast_int q = Except.ok (truncToInt q) := by
  have hq0 : (0 : ℚ) < q := by linarith
  have hp0 : (0 : ℚ) < p := by linarith
  have ha0 : 0 < p / q := div_pos hp0 hq0
  have ha : p / q ≤ 2 ^ 24 := by
    rw [div_le_iff₀ hq0]
    nlinarith
  set r := roundFloat (p / q) with hr
  have hrb : |r| ≤ 2 * (p / q) := by
    have := abs_roundFloat_le (p / q)
    rwa [abs_of_pos ha0] at this
  have hqr : |q * r| ≤ 2 * p := by
    rw [abs_mul, abs_of_pos hq0]
    calc q * |r| ≤ q * (2 * (p / q)) := mul_le_mul_of_nonneg_left hrb hq0.le
      _ = 2 * p := by field_simp
  set vw := roundFloat (q * r) with hvw
  have hvwb : |vw| ≤ 4 * p := by
    have := abs_roundFloat_le (q * r)
    linarith
  have hsub : |p - vw| ≤ 5 * p := by
    have := abs_sub p vw
    rw [abs_of_pos hp0] at this
    linarith
  set d := roundFloat (p - vw) with hd
  have hdb : |d| ≤ 10 * p := by
    have := abs_roundFloat_le (p - vw)
    linarith
  have hd2 : |d / 2| ≤ 5 * p := by
    rw [abs_div, abs_of_pos (by norm_num : (0 : ℚ) < 2)]
    linarith
  have hd2b : |roundFloat (d / 2)| ≤ 10 * p := by
    have := abs_roundFloat_le (d / 2)
    linarith
  refine ⟨fdiv_ok p q hq0.ne' ?_, fmul_ok q r ?_, fsub_ok p vw ?_, fdiv_ok d 2 (by norm_num) ?_,
    static_cast_int_ok _ ?_, static_cast_int_ok _ ?_, static_cast_int_ok _ ?_,
    static_cast_int_ok _ ?_⟩
  · rw [abs_of_pos ha0]
    exact lt_of_le_of_lt ha (by norm_num)
  · exact lt_of_le_of_lt hqr (by norm_num; linarith)
  · exact lt_of_le_of_lt hsub (by norm_num; linarith)
  · exact lt_of_le_of_lt hd2 (by norm_num; linarith)
  · exact lt_of_le_of_lt hd2b (by norm_num; linarith)
  · exact lt_of_le_of_lt hvwb (by norm_num; linarith)
  · rw [abs_of_pos hp0]
    exact lt_of_le_of_lt hp2 (by norm_num)
  · rw [abs_of_pos hq0]
    exact lt_of_le_of_lt hq2 (by norm_num)

/-- For sizes between `1` and `2 ^ 24`, the float `q * (p / q)` is within
`p / 2 ^ 22` of `p`. -/
theorem viewport_roundtrip_error (p q : ℚ) (hp : 1 ≤ p) (hq : 1 ≤ q) (hq2 : q ≤ 2 ^ 24) :
    |roundFloat (q * roundFloat (p / q)) - p| ≤ p / 2 ^ 22 := by
  have hq0 : (0 : ℚ) < q := by linarith
  have hp0 : (0 : ℚ) < p := by linarith
  have ha0 : 0 < p / q := div_pos hp0 hq0
  have ha1 : (2 : ℚ) ^ (-126 : Int) ≤ |p / q| := by
    rw [abs_of_pos ha0, le_div_iff₀ hq0]
    have h1 : (2 : ℚ) ^ (-126 : Int) ≤ 1 / 2 ^ 24 := by norm_num
    calc (2 : ℚ) ^ (-126 : Int) * q ≤ 1 / 2 ^ 24 * q :=
          mul_le_mul_of_nonneg_right h1 hq0.le
      _ ≤ 1 / 2 ^ 24 * 2 ^ 24 := mul_le_mul_of_nonneg_left hq2 (by norm_num)
      _ = 1 := by norm_num
      _ ≤ p := hp
  have e1 := abs_roundFloat_sub_le (p / q) ha1
  rw [abs_of_pos ha0] at e1
  set r := roundFloat (p / q) with hr
  -- q * r is within p / 2 ^ 24 of p
  have e2 : |q * r - p| ≤ p / 2 ^ 24 := by
    have : q * r - p = q * (r - p / q) := by
      field_simp
      ring
    rw [this, abs_mul, abs_of_pos hq0]
    calc q * |r - p / q| ≤ q * (p / q / 2 ^ 24) := mul_le_mul_of_nonneg_left e1 hq0.le
      _ = p / 2 ^ 24 := by
        field_simp
        ring
  have e2' := abs_le.mp e2
  have hqr0 : 0 < q * r := by
    have : p / 2 ^ 24 < p := by
      rw [div_lt_iff₀ (by norm_num)]
      linarith
    linarith [e2'.1]
  have hqr1 : (2 : ℚ) ^ (-126 : Int) ≤ |q * r| := by
    rw [abs_of_pos hqr0]
    have h1 : (2 : ℚ) ^ (-126 : Int) ≤ 1 / 2 := by norm_num
    have h2 : p / 2 ^ 24 ≤ p / 2 := by
      apply div_le_div_of_nonneg_left hp0.le (by norm_num) (by norm_num)
    have h3 : (1 : ℚ) / 2 ≤ q * r := by linarith [e2'.1]
    exact le_trans h1 h3
  have e3 := abs_roundFloat_sub_le (q * r) hqr1
  rw [abs_of_pos hqr0] at e3
  have e4 : q * r ≤ 2 * p := by
    have : p / 2 ^ 24 ≤ p := by
      rw [div_le_iff₀ (by norm_num)]
      linarith
    linarith [e2'.2]
  have e5 : q * r / 2 ^ 24 ≤ 2 * p / 2 ^ 24 :=
    div_le_div_of_nonneg_right e4 (by norm_num)
  have e6 : |roundFloat (q * r) - p| ≤ |roundFloat (q * r) - q * r| + |q * r - p| := by
    have := abs_add (roundFloat (q * r) - q * r) (q * r - p)
    simpa using this
  have e7 : q * r / 2 ^ 24 + p / 2 ^ 24 ≤ p / 2 ^ 22 := by
    have : p / 2 ^ 22 = 2 * p / 2 ^ 24 + 2 * p / 2 ^ 24 := by ring
    have h3 : p / 2 ^ 24 ≤ 2 * p / 2 ^ 24 :=
      div_le_div_of_nonneg_right (by linarith) (by norm_num)
    linarith
  linarith

/-- An integer below `2 ^ 24` in magnitude is a float: rounding keeps it. -/
theorem roundFloat_intCast (n : Int) (h : |n| < 2 ^ 24) : roundFloat (n : ℚ) = n := by
  by_cases h0 : n = 0
  · subst h0
    simpa using roundFloat_zero
  have hne : (n : ℚ) ≠ 0 := by exact_mod_cast h0
  have hpos : 0 < |(n : ℚ)| := abs_pos.mpr hne
  have h1 : (1 : ℚ) ≤ |(n : ℚ)| := by exact_mod_cast Int.one_le_abs h0
  have h2 : |(n : ℚ)| < 2 ^ (24 : Int) := by
    have : ((|n| : Int) : ℚ) < ((2 ^ 24 : Int) : ℚ) := by exact_mod_cast h
    rw [Int.cast_abs] at this
    norm_num at this ⊢
    exact this
  have hL0 : 0 ≤ Int.log 2 |(n : ℚ)| :=
    (Int.zpow_le_iff_le_log (b := 2) (by norm_num) hpos).mp (by simpa using h1)
  have hL1 : Int.log 2 |(n : ℚ)| < 24 :=
    (Int.lt_zpow_iff_log_lt (b := 2) (by norm_num) hpos).mp (by exact_mod_cast h2)
  obtain ⟨k, hk⟩ : ∃ k : ℕ, ulpExponent (n : ℚ) = -(k : Int) :=
    ⟨(23 - Int.log 2 |(n : ℚ)|).toNat, by unfold ulpExponent; omega⟩
  unfold roundFloat
  rw [hk]
  have e : (n : ℚ) / 2 ^ (-(k : Int)) = ((n * 2 ^ k : Int) : ℚ) := by
    rw [zpow_neg, zpow_natCast]
    push_cast
    field_simp
  rw [e, roundHalfEven_intCast]
  push_cast
  rw [zpow_neg, zpow_natCast]
  field_simp

theorem floatOfInt_eq (n : Int) (h : |n| < 2 ^ 24) : floatOfInt n = n :=
  roundFloat_intCast n h

theorem roundFloat_one : roundFloat 1 = 1 := by
  have := roundFloat_intCast 1 (by norm_num)
  simpa using this

theorem static_cast_int_zero : static_cast_int 0 = Except.ok 0 := by
  rw [static_cast_int_ok 0 (by norm_num)]
  simp [truncToInt]

/-- Evaluating `static_cast<int>` at a non-negative value. -/
theorem static_cast_int_eq_of (q : ℚ) (n : Int) (h0 : 0 ≤ q) (h1 : (n : ℚ) ≤ q)
    (h2 : q < (n : ℚ) + 1) (h3 : q < 2 ^ 31) : static_cast_int q = Except.ok n := by
  rw [static_cast_int_ok q (by rw [abs_of_nonneg h0]; exact h3), truncToInt_eq_of q n h1 h2 h0]

/-- The computation at `800 x 600`: the width comes back as `800` exactly. -/
theorem viewportValues_800_600 :
    viewportValues ⟨800, 600⟩ = Except.ok ⟨0, 0, 800, 600, 800, 600⟩ := by
  have r1 : roundFloat (800 / 600) = 11184811 / 8388608 := by
    rw [roundFloat_eq_of (800 / 600) 0 11184811 (by norm_num [abs_of_pos])
      (by norm_num [abs_of_pos]) (by norm_num) (by norm_num) (by norm_num)]
    norm_num
  have r2 : roundFloat (600 * (11184811 / 8388608)) = 800 := by
    rw [roundFloat_eq_of _ 9 13107200 (by norm_num [abs_of_pos]) (by norm_num [abs_of_pos])
      (by norm_num) (by norm_num) (by norm_num)]
    norm_num
  apply viewportValues_wide_of 800 600 (11184811 / 8388608) 800 0 0 0 800 600 (by norm_num)
  · rw [fdiv_ok _ _ (by norm_num) (by norm_num [abs_of_pos]), r1]
  · rw [fmul_ok _ _ (by norm_num [abs_of_pos]), r2]
  · rw [fsub_ok _ _ (by norm_num), sub_self, roundFloat_zero]
  · rw [fdiv_ok _ _ (by norm_num) (by norm_num), zero_div, roundFloat_zero]
  · exact static_cast_int_zero
  · exact static_cast_int_eq_of 800 800 (by norm_num) (by norm_num) (by norm_num) (by norm_num)
  · exact static_cast_int_eq_of 600 600 (by norm_num) (by norm_num) (by norm_num) (by norm_num)

/-- The computation at `640 x 610`: the width comes back as
`10485759 / 16384 = 639.99993896484375` and converts to `639`. -/
theorem viewportValues_640_610 :
    viewportValues ⟨640, 610⟩ = Except.ok ⟨0, 0, 10485759 / 16384, 610, 639, 610⟩ := by
  have r1 : roundFloat (640 / 610) = 4400581 / 4194304 := by
    rw [roundFloat_eq_of (640 / 610) 0 8801162 (by norm_num [abs_of_pos])
      (by norm_num [abs_of_pos]) (by norm_num) (by norm_num) (by norm_num)]
    norm_num
  have r2 : roundFloat (610 * (4400581 / 4194304)) = 10485759 / 16384 := by
    rw [roundFloat_eq_of _ 9 10485759 (by norm_num [abs_of_pos]) (by norm_num [abs_of_pos])
      (by norm_num) (by norm_num) (by norm_num)]
    norm_num
  have r3 : roundFloat (640 - 10485759 / 16384) = 1 / 16384 := by
    rw [roundFloat_eq_of _ (-14) 8388608 (by norm_num [abs_of_pos])
      (by norm_num [abs_of_pos]) (by norm_num) (by norm_num) (by norm_num)]
    norm_num
  have r4 : roundFloat (1 / 16384 / 2) = 1 / 32768 := by
    rw [roundFloat_eq_of _ (-15) 8388608 (by norm_num [abs_of_pos])
      (by norm_num [abs_of_pos]) (by norm_num) (by norm_num) (by norm_num)]
    norm_num
  apply viewportValues_wide_of 640 610 (4400581 / 4194304) (10485759 / 16384) (1 / 16384)
    (1 / 32768) 0 639 610 (by norm_num)
  · rw [fdiv_ok _ _ (by norm_num) (by norm_num [abs_of_pos]), r1]
  · rw [fmul_ok _ _ (by norm_num [abs_of_pos]), r2]
  · rw [fsub_ok _ _ (by norm_num [abs_of_pos]), r3]
  · rw [fdiv_ok _ _ (by norm_num) (by norm_num [abs_of_pos]), r4]
  · exact static_cast_int_eq_of _ 0 (by norm_num) (by norm_num) (by norm_num) (by norm_num)
  · exact static_cast_int_eq_of _ 639 (by norm_num) (by norm_num) (by norm_num) (by norm_num)
  · exact static_cast_int_eq_of 610 610 (by norm_num) (by norm_num) (by norm_num) (by norm_num)

/-- For sizes between `1` and `2 ^ 24` the computation returns. -/
theorem viewportValues_defined (x y : ℚ) (hx : 1 ≤ x) (hx2 : x ≤ 2 ^ 24) (hy : 1 ≤ y)
    (hy2 : y ≤ 2 ^ 24) : ∃ v, viewportValues ⟨x, y⟩ = Except.ok v := by
  by_cases h : x > y
  · obtain ⟨h1, h2, h3, h4, h5, h6, -, h8⟩ := viewport_chain_defined x y hx hx2 hy hy2
    exact ⟨_, viewportValues_wide_of x y _ _ _ _ _ _ _ h h1 h2 h3 h4 h5 h6 h8⟩
  · obtain ⟨h1, h2, h3, h4, h5, h6, -, h8⟩ := viewport_chain_defined y x hy hy2 hx hx2
    exact ⟨_, viewportValues_tall_of x y _ _ _ _ _ _ _ h h1 h2 h3 h4 h5 h8 h6⟩

theorem map_eq_ok {α β : Type} (f : α → β) (x : Except Fault α) (b : β)
    (h : x.map f = Except.ok b) : ∃ a, x = Except.ok a ∧ b = f a := by
  cases x with
  | error e => cases h
  | ok a =>
    simp only [Except.map, Except.ok.injEq] at h
    exact ⟨a, rfl, h.symm⟩

/-- A returning `CalculateViewPort` applied the values of `viewportValues`. -/
theorem CalculateViewPort_eq_ok (s s' : World) (h : CalculateViewPort s = Except.ok s') :
    ∃ v, viewportValues s.gm.mScreenResolution = Except.ok v ∧ s' = applyViewport s v := by
  rw [CalculateViewPort_eq] at h
  exact map_eq_ok _ _ _ h

theorem CalculateViewPort_of_values (s : World) (v : ViewportValues)
    (h : viewportValues s.gm.mScreenResolution = Except.ok v) :
    CalculateViewPort s = Except.ok (applyViewport s v) := by
  rw [CalculateViewPort_eq, h]
  rfl

/-! ### C1 -/

/-- C1, as the code has it (binary32 arithmetic): for every screen resolution
`(w, h)` with `w > 0` and `h > 0`, `w` a float, a `CalculateViewPort` that
returns has called
`glViewport(xOffset, yOffset, (int)viewportWidth, (int)viewportHeight)` and
stored `(viewportWidth, viewportHeight)`, where: if `w ≥ h` then
`yOffset = 0`, `viewportHeight = h`, `viewportWidth` is the float
`h * (w / h)` (each operation rounded), which is `w` when `w = h`, and
`xOffset = (int)((w - viewportWidth) / 2)`; if `h > w` then `xOffset = 0` and
`viewportWidth = w`. For sizes between `1` and `2 ^ 24` the function does
return and `viewportWidth` is within `w / 2 ^ 22` of `w`. After
`SetWindowDimensions(800, 600)` the stored viewport resolution is
`(800, 600)`. -/
theorem C1_CalculateViewPort_contract (s : World) (w h : ℚ) (hw : 0 < w) (hh : 0 < h)
    (hwf : roundFloat w = w)
    (hres : GetWindowResolution s.gm = ⟨w, h⟩) :
    (∀ s', CalculateViewPort s = Except.ok s' →
      ∃ (xOffset yOffset : Int) (viewportWidth viewportHeight : ℚ) (widthInt heightInt : Int),
        s' = { gm := { s.gm with mViewportResolution := ⟨viewportWidth, viewportHeight⟩ }
               calls := s.calls ++ [Call.glViewport xOffset yOffset widthInt heightInt]
               log := s.log } ∧
        static_cast_int viewportWidth = Except.ok widthInt ∧
        static_cast_int viewportHeight = Except.ok heightInt ∧
        (w ≥ h → yOffset = 0 ∧ viewportHeight = h ∧
          viewportWidth = roundFloat (h * roundFloat (w / h)) ∧
          static_cast_int (roundFloat (roundFloat (w - viewportWidth) / 2)) =
            Except.ok xOffset ∧
          (w = h → viewportWidth = w)) ∧
        (h > w → xOffset = 0 ∧ viewportWidth = w)) ∧
    (1 ≤ w → w ≤ 2 ^ 24 → 1 ≤ h → h ≤ 2 ^ 24 →
      (∃ s', CalculateViewPort s = Except.ok s') ∧
      |roundFloat (h * roundFloat (w / h)) - w| ≤ w / 2 ^ 22) ∧
    (∃ t, SetWindowDimensions 800 600 s = Except.ok t ∧
      GetViewportResolution t.gm = ⟨800, 600⟩) := by
  have hres' : s.gm.mScreenResolution = ⟨w, h⟩ := hres
  refine ⟨?_, ?_, ?_⟩
  · intro s' hs'
    obtain ⟨v, hv, rfl⟩ := CalculateViewPort_eq_ok s s' hs'
    rw [hres'] at hv
    refine ⟨v.xOffset, v.yOffset, v.width, v.height, v.widthInt, v.heightInt, rfl, ?_⟩
    by_cases hgt : w > h
    · obtain ⟨g1, g2, g3, g4, g5, g6⟩ := viewportValues_wide_inv w h v hgt hv
      refine ⟨g5, g6, fun _ => ⟨g1, g2, g3, g4, fun heq => absurd heq (ne_of_gt hgt)⟩,
        fun hlt => ?_⟩
      exact absurd hlt (not_lt.mpr hgt.le)
    · obtain ⟨g1, g2, g3, g4, g5, g6⟩ := viewportValues_tall_inv w h v hgt hv
      refine ⟨g5, g6, fun hge => ?_, fun _ => ⟨g1, g2⟩⟩
      have heq : w = h := le_antisymm (not_lt.mp hgt) hge
      subst heq
      have e1 : w / w = 1 := div_self hw.ne'
      have e2 : v.height = w := by
        rw [g3, e1, roundFloat_one, mul_one, hwf]
      rw [e2, sub_self, roundFloat_zero, zero_div, roundFloat_zero, static_cast_int_zero] at g4
      simp only [Except.ok.injEq] at g4
      refine ⟨g4.symm, e2, ?_, ?_, fun _ => g2⟩
      · rw [g2, e1, roundFloat_one, mul_one, hwf]
      · rw [g2, sub_self, roundFloat_zero, zero_div, roundFloat_zero, static_cast_int_zero, g1]
  · intro h1 h2 h3 h4
    obtain ⟨v, hv⟩ := viewportValues_defined w h h1 h2 h3 h4
    refine ⟨⟨_, CalculateViewPort_of_values s v (by rw [hres']; exact hv)⟩, ?_⟩
    exact viewport_roundtrip_error w h h1 h3 h4
  · unfold SetWindowDimensions
    refine ⟨_, CalculateViewPort_of_values _ ⟨0, 0, 800, 600, 800, 600⟩ ?_, rfl⟩
    simp only [floatOfInt_eq 800 (by norm_num), floatOfInt_eq 600 (by norm_num)]
    exact_mod_cast viewportValues_800_600

/-- C1 at the resolution `1024 x 768`: the function returns there, and the
width it stores is within `1024 / 2 ^ 22` of `1024`. -/
theorem C1_CalculateViewPort_contract_witness :
    (∃ s', CalculateViewPort (fixtureWorld 1024 768) = Except.ok s') ∧
    |roundFloat (768 * roundFloat (1024 / 768)) - 1024| ≤ 1024 / 2 ^ 22 :=
  (C1_CalculateViewPort_contract (fixtureWorld 1024 768) 1024 768 (by norm_num) (by norm_num)
    (by exact_mod_cast roundFloat_intCast 1024 (by norm_num)) rfl).2.1
    (by norm_num) (by norm_num) (by norm_num) (by norm_num)

/-- C1 fails as stated: at `640 x 610`, with `w ≥ h`, `CalculateViewPort`
calls `glViewport(0, 0, 639, 610)` and stores the width
`10485759 / 16384 = 639.99993896484375`, not `640`. -/
theorem C1_counterexample :
    ∃ t, SetWindowDimensions 640 610 World.fresh = Except.ok t ∧
      t.calls = [Call.glViewport 0 0 639 610] ∧
      GetViewportResolution t.gm = ⟨10485759 / 16384, 610⟩ ∧
      GetViewportResolution t.gm ≠ ⟨640, 610⟩ := by
  have hv : viewportValues ⟨floatOfInt 640, floatOfInt 610⟩ =
      Except.ok ⟨0, 0, 10485759 / 16384, 610, 639, 610⟩ := by
    simp only [floatOfInt_eq 640 (by norm_num), floatOfInt_eq 610 (by norm_num)]
    exact_mod_cast viewportValues_640_610
  refine ⟨_, CalculateViewPort_of_values _ _ hv, rfl, rfl, ?_⟩
  simp only [GetViewportResolution, applyViewport, ne_eq, vec2.mk.injEq, not_and]
  norm_num

/-! ### C2 -/

/-- C2: for every manager state and every active scene whose active camera
reports projection matrix `P` and view-inverse matrix `V`, `Update()` leaves
`projectionMatrix = P`, `viewInverseMatrix = V` and
`viewProjectionMatrix = P * V`, the matrix product with `P` on the left:
entry `(i, j)` is the sum over `k` of `P i k * V k j`. -/
theorem C2_Update_with_camera (sm : SceneManager) (s : World) (scene : BaseScene)
    (camera : BaseCamera) (P V : mat4x4)
    (hscene : sm.GetActiveScene = some scene)
    (hcamera : scene.GetActiveCamera = some camera)
    (hP : camera.GetComponent.GetProjection = P)
    (hV : camera.GetComponent.GetViewInverse = V) :
    GetProjectionMatrix (Update sm s).gm = P ∧
    GetViewInverseMatrix (Update sm s).gm = V ∧
    GetViewProjectionMatrix (Update sm s).gm = P * V ∧
    ∀ i j : Fin 4, GetViewProjectionMatrix (Update sm s).gm i j =
      P i 0 * V 0 j + P i 1 * V 1 j + P i 2 * V 2 j + P i 3 * V 3 j := by
  have hU : Update sm s = { s with gm := { s.gm with
      mProjectionMatrix := P
      mViewInverseMatrix := V
      mViewProjectionMatrix := P * V } } := by
    unfold Update
    rw [hscene]
    simp only [hcamera, hP, hV]
  rw [hU]
  refine ⟨rfl, rfl, rfl, ?_⟩
  intro i j
  simp [GetViewProjectionMatrix, Matrix.mul_apply, Fin.sum_univ_four]

/-- C2 on the fixture scene, from the freshly constructed manager. -/
theorem C2_Update_with_camera_witness :
    GetProjectionMatrix (Update fixtureSceneManager World.fresh).gm = fixtureProjection ∧
    GetViewInverseMatrix (Update fixtureSceneManager World.fresh).gm = fixtureViewInverse ∧
    GetViewProjectionMatrix (Update fixtureSceneManager World.fresh).gm =
      fixtureProjection * fixtureViewInverse ∧
    ∀ i j : Fin 4, GetViewProjectionMatrix (Update fixtureSceneManager World.fresh).gm i j =
      fixtureProjection i 0 * fixtureViewInverse 0 j +
      fixtureProjection i 1 * fixtureViewInverse 1 j +
      fixtureProjection i 2 * fixtureViewInverse 2 j +
      fixtureProjection i 3 * fixtureViewInverse 3 j :=
  C2_Update_with_camera fixtureSceneManager World.fresh
    { activeCamera := some
        { cameraComponent :=
            { projection := fixtureProjection, viewInverse := fixtureViewInverse } } }
    { cameraComponent :=
        { projection := fixtureProjection, viewInverse := fixtureViewInverse } }
    fixtureProjection fixtureViewInverse rfl rfl rfl rfl

/-! ### C3 -/

/-- C3: for every manager state, `Update()` called when there is no active
scene, or when the active scene has no active camera, leaves the three
matrices and every other field of the manager as they were, makes no call
and logs nothing. -/
theorem C3_Update_without_camera (sm : SceneManager) (s : World)
    (h : sm.GetActiveScene = none ∨
      ∃ scene, sm.GetActiveScene = some scene ∧ scene.GetActiveCamera = none) :
    Update sm s = s ∧
    GetViewProjectionMatrix (Update sm s).gm = GetViewProjectionMatrix s.gm ∧
    GetProjectionMatrix (Update sm s).gm = GetProjectionMatrix s.gm ∧
    GetViewInverseMatrix (Update sm s).gm = GetViewInverseMatrix s.gm := by
  have hU : Update sm s = s := by
    unfold Update
    rcases h with h | ⟨scene, h1, h2⟩
    · rw [h]
    · rw [h1]
      simp only [h2]
  rw [hU]
  exact ⟨rfl, rfl, rfl, rfl⟩

/-- C3 on a manager primed with the fixture matrices, then updated with no
active scene. -/
theorem C3_Update_without_camera_witness :
    Update { activeScene := none } (Update fixtureSceneManager World.fresh) =
      Update fixtureSceneManager World.fresh ∧
    GetViewProjectionMatrix
        (Update { activeScene := none } (Update fixtureSceneManager World.fresh)).gm =
      GetViewProjectionMatrix (Update fixtureSceneManager World.fresh).gm ∧
    GetProjectionMatrix
        (Update { activeScene := none } (Update fixtureSceneManager World.fresh)).gm =
      GetProjectionMatrix (Update fixtureSceneManager World.fresh).gm ∧
    GetViewInverseMatrix
        (Update { activeScene := none } (Update fixtureSceneManager World.fresh)).gm =
      GetViewInverseMatrix (Update fixtureSceneManager World.fresh).gm :=
  C3_Update_without_camera { activeScene := none } (Update fixtureSceneManager World.fresh)
    (Or.inl rfl)

/-! ### Mobile `Initialize`: the shape of its result -/

namespace Mobile

theorem someStepFails_iff_not_allSucceed (egl : EGL) :
    egl.someStepFails ↔ ¬ egl.allSucceed := by
  unfold EGL.someStepFails EGL.allSucceed
  simp only [not_and_or, not_lt, ne_eq, not_not, Bool.not_eq_true]

/-- On an initialized manager `Initialize` does nothing at all. -/
theorem initialized_Initialize_noop (egl : EGL) (app : android_app) (s : World)
    (h : s.gm.mIsInitialized = true) : Initialize egl app s = s := by
  unfold Initialize
  simp [h]

/-- On an uninitialized manager, when every EGL step succeeds, `Initialize`
runs the whole chain, stores the three handles and the queried surface size,
and sets the flag. -/
theorem Initialize_success (egl : EGL) (app : android_app) (s : World)
    (hu : s.gm.mIsInitialized = false) (hall : egl.allSucceed) :
    Initialize egl app s =
      { gm := { s.gm with
          mDisplay := egl.eglGetDisplay
          mSurface := egl.eglCreateWindowSurface
          mContext := egl.eglCreateContext
          mViewportResolution := ⟨(egl.sX : ℚ), (egl.sY : ℚ)⟩
          mScreenResolution := ⟨(egl.sX : ℚ), (egl.sY : ℚ)⟩
          mIsInitialized := true }
        calls := s.calls ++ chainCalls egl app
        log := s.log ++ [(LogLevel.Info, "Graphics Manager : Initialize"),
          (LogLevel.Info, "Graphics Manager : Initialized")] } := by
  obtain ⟨h1, h2, ⟨h3, h4⟩, h5, h6, h7, h8, h9, h10, h11, h12⟩ := hall
  simp [Initialize, hu, h1, h2, h3, h5, h6, h7, h8, h9, h10, not_le.mpr h4, not_le.mpr h11,
    not_le.mpr h12, chainCalls, truncToInt_intCast]

/-- On an uninitialized manager, when a step fails, `Initialize` returns
with the flag still clear and both resolutions untouched; the calls it made
begin with `eglGetDisplay`. -/
theorem Initialize_failure (egl : EGL) (app : android_app) (s : World)
    (hu : s.gm.mIsInitialized = false) (hf : egl.someStepFails) :
    (Initialize egl app s).gm.mIsInitialized = false ∧
    (Initialize egl app s).gm.mScreenResolution = s.gm.mScreenResolution ∧
    (Initialize egl app s).gm.mViewportResolution = s.gm.mViewportResolution ∧
    s.calls ++ [Call.eglGetDisplay EGL_DEFAULT_DISPLAY] <+: (Initialize egl app s).calls := by
  have hn := (someStepFails_iff_not_allSucceed egl).mp hf
  by_cases h1 : egl.eglGetDisplay = EGL_NO_DISPLAY
  · simp [Initialize, hu, h1]
  by_cases h2 : egl.eglInitialize = true
  swap
  · simp [Initialize, hu, h1, h2]
  by_cases h3 : egl.eglChooseConfig = true ∧ 0 < egl.lNumConfigs
  swap
  · have h3' : egl.eglChooseConfig = false ∨ egl.lNumConfigs ≤ 0 := by
      by_cases hc : egl.eglChooseConfig = true
      · exact Or.inr (not_lt.mp fun hl => h3 ⟨hc, hl⟩)
      · exact Or.inl (by simpa using hc)
    simp [Initialize, hu, h1, h2, h3']
  by_cases h4 : egl.eglGetConfigAttrib = true
  swap
  · simp [Initialize, hu, h1, h2, h3.1, not_le.mpr h3.2, h4]
  by_cases h5 : egl.eglCreateWindowSurface = EGL_NO_SURFACE
  · simp [Initialize, hu, h1, h2, h3.1, not_le.mpr h3.2, h4, h5]
  by_cases h6 : egl.eglCreateContext = EGL_NO_CONTEXT
  · simp [Initialize, hu, h1, h2, h3.1, not_le.mpr h3.2, h4, h5, h6]
  by_cases h7 : egl.eglMakeCurrent = true
  swap
  · simp [Initialize, hu, h1, h2, h3.1, not_le.mpr h3.2, h4, h5, h6, h7]
  by_cases h8 : egl.eglQuerySurfaceWidth = true
  swap
  · simp [Initialize, hu, h1, h2, h3.1, not_le.mpr h3.2, h4, h5, h6, h7, h8]
  by_cases h9 : egl.eglQuerySurfaceHeight = true
  swap
  · simp [Initialize, hu, h1, h2, h3.1, not_le.mpr h3.2, h4, h5, h6, h7, h8, h9]
  by_cases h10 : 0 < egl.sX ∧ 0 < egl.sY
  swap
  · have h10' : egl.sX ≤ 0 ∨ egl.sY ≤ 0 := by
      by_cases hc : 0 < egl.sX
      · exact Or.inr (not_lt.mp fun hl => h10 ⟨hc, hl⟩)
      · exact Or.inl (not_lt.mp hc)
    simp [Initialize, hu, h1, h2, h3.1, not_le.mpr h3.2, h4, h5, h6, h7, h8, h9, h10']
  exact absurd ⟨h1, h2, h3, h4, h5, h6, h7, h8, h9, h10.1, h10.2⟩ hn

/-- On an uninitialized manager the first thing `Initialize` calls is
`eglGetDisplay`, the first step of the chain. -/
theorem Initialize_starts_chain (egl : EGL) (app : android_app) (s : World)
    (hu : s.gm.mIsInitialized = false) :
    s.calls ++ [Call.eglGetDisplay EGL_DEFAULT_DISPLAY] <+: (Initialize egl app s).calls := by
  by_cases hall : egl.allSucceed
  · rw [Initialize_success egl app s hu hall]
    simp [chainCalls]
  · exact (Initialize_failure egl app s hu
      ((someStepFails_iff_not_allSucceed egl).mpr hall)).2.2.2

end Mobile

namespace Desktop

/-- A successful `SetVSync` went through a non-null pointer, exactly once,
with `1` for `true` and `0` for `false`, and touched nothing else. -/
theorem SetVSync_ok (vSync : Bool) (s s1 : World) (h : SetVSync vSync s = Except.ok s1) :
    s.gm.mWglSwapIntervalEXT ≠ NULL ∧
    s1 = emit (Call.wglSwapIntervalEXT s.gm.mWglSwapIntervalEXT (if vSync then 1 else 0)) s := by
  unfold SetVSync callSwapIntervalEXT at h
  by_cases hp : s.gm.mWglSwapIntervalEXT = NULL
  · cases vSync <;> simp [hp] at h
  · cases vSync <;> simp [hp] at h <;> exact ⟨hp, h.symm⟩

/-- Through a null pointer `SetVSync` faults. -/
theorem SetVSync_null (vSync : Bool) (s : World) (h : s.gm.mWglSwapIntervalEXT = NULL) :
    SetVSync vSync s = Except.error Fault.nullFunctionPointerCall := by
  unfold SetVSync callSwapIntervalEXT
  cases vSync <;> simp [h]

/-- `InitializeOpenGLFunctors` writes the two function pointers at most. -/
theorem InitializeOpenGLFunctors_ok (driver : WGLDriver) (s s1 : World) (b : Bool)
    (h : InitializeOpenGLFunctors driver s = Except.ok (b, s1)) :
    s1.gm.mIsInitialized = s.gm.mIsInitialized ∧
    s1.gm.mScreenResolution = s.gm.mScreenResolution ∧
    s1.gm.mViewportResolution = s.gm.mViewportResolution ∧
    (b = false → s1.gm = s.gm) := by
  unfold InitializeOpenGLFunctors WGLExtensionSupported at h
  by_cases hp : driver.procAddress "wglGetExtensionsStringEXT" = NULL
  · simp [hp] at h
  · by_cases hs : (strstr driver.extensions.data "WGL_EXT_swap_control".data).isNone = true
    · simp [hp, hs] at h
      obtain ⟨hb, h⟩ := h
      subst h
      simp
    · simp [hp, hs] at h
      obtain ⟨hb, h⟩ := h
      subst h
      subst hb
      simp

/-- When the driver answers the extension query and the extension is not
listed, `InitializeOpenGLFunctors` makes the two calls of the query, returns
`false` and leaves the manager, its two function pointers included, as it
was. -/
theorem InitializeOpenGLFunctors_unsupported (driver : WGLDriver) (s : World)
    (hprobe : driver.procAddress "wglGetExtensionsStringEXT" ≠ NULL)
    (hunsup : strstr driver.extensions.data "WGL_EXT_swap_control".data = none) :
    InitializeOpenGLFunctors driver s =
      Except.ok (false, emit Call.wglGetExtensionsStringEXT
        (emit (Call.wglGetProcAddress "wglGetExtensionsStringEXT") s)) := by
  unfold InitializeOpenGLFunctors WGLExtensionSupported
  simp [hprobe, hunsup]

/-- An `Initialize` that returns leaves the manager initialized and does not
write the viewport resolution; on an uninitialized manager it stores the
screen resolution. -/
theorem Initialize_ok (driver : WGLDriver) (w h : Int) (s s1 : World)
    (hok : Initialize driver w h s = Except.ok s1) :
    s1.gm.mIsInitialized = true ∧
    s1.gm.mViewportResolution = s.gm.mViewportResolution ∧
    (s.gm.mIsInitialized = false →
      s1.gm.mScreenResolution = ⟨floatOfInt w, floatOfInt h⟩) := by
  unfold Initialize at hok
  by_cases hi : s.gm.mIsInitialized = true
  · simp [hi] at hok
    subst hok
    simp [hi]
  · have hi' : s.gm.mIsInitialized = false := by simpa using hi
    simp only [hi', Bool.not_false, reduceIte] at hok
    split at hok
    · cases hok
    · rename_i supported s2 hfun
      split at hok
      · cases hok
      · rename_i s3 hvs
        obtain ⟨-, g2, g3, -⟩ := InitializeOpenGLFunctors_ok _ _ _ _ hfun
        obtain ⟨-, g4⟩ := SetVSync_ok _ _ _ hvs
        simp only [Except.ok.injEq] at hok
        subst hok
        subst g4
        cases supported <;> simp_all

/-- On an initialized manager `Initialize` does nothing at all. -/
theorem initialized_Initialize_ok (driver : WGLDriver) (w h : Int) (s : World)
    (hi : s.gm.mIsInitialized = true) : Initialize driver w h s = Except.ok s := by
  unfold Initialize
  simp [hi]

end Desktop

namespace Mobile

/-- After `Destroy` the display handle is at its sentinel. -/
theorem Destroy_display (s : World) : (Destroy s).gm.mDisplay = EGL_NO_DISPLAY := by
  unfold Destroy
  by_cases h : s.gm.mDisplay = EGL_NO_DISPLAY
  · simp [h]
  · simp [h]

/-- With the display handle at its sentinel `Destroy` only logs. -/
theorem Destroy_of_no_display (s : World) (h : s.gm.mDisplay = EGL_NO_DISPLAY) :
    Destroy s = Log LogLevel.Info "Graphics Manager : Destroy" s := by
  unfold Destroy
  simp [h]

/-- With a display, `Destroy` leaves the surface and context handles at
their sentinels. -/
theorem Destroy_of_display (s : World) (h : s.gm.mDisplay ≠ EGL_NO_DISPLAY) :
    (Destroy s).gm.mSurface = EGL_NO_SURFACE ∧ (Destroy s).gm.mContext = EGL_NO_CONTEXT := by
  unfold Destroy
  by_cases hc : s.gm.mContext = EGL_NO_CONTEXT <;>
    by_cases hs : s.gm.mSurface = EGL_NO_SURFACE <;> simp [h, hc, hs]

end Mobile

/-! ### C4 -/

/-- C4, as the code has it: a second `Initialize` is a no-op whenever the
first one completed with `isInitialized = true`. On desktop that is every
first call that returns; on mobile it is a first call on an initialized
manager or one in which every EGL step succeeded. The second call then makes
no platform call, logs nothing and returns the state of the first call. -/
theorem C4_second_Initialize_is_noop
    (driver₁ driver₂ : Desktop.WGLDriver) (w h w₂ h₂ : Int) (sd : World)
    (egl₁ egl₂ : Mobile.EGL) (app₁ app₂ : Mobile.android_app) (sm : World) :
    (∀ s1, Desktop.Initialize driver₁ w h sd = Except.ok s1 →
      s1.gm.mIsInitialized = true ∧ Desktop.Initialize driver₂ w₂ h₂ s1 = Except.ok s1) ∧
    ((sm.gm.mIsInitialized = true ∨ egl₁.allSucceed) →
      (Mobile.Initialize egl₁ app₁ sm).gm.mIsInitialized = true) ∧
    ((Mobile.Initialize egl₁ app₁ sm).gm.mIsInitialized = true →
      Mobile.Initialize egl₂ app₂ (Mobile.Initialize egl₁ app₁ sm) =
        Mobile.Initialize egl₁ app₁ sm) := by
  refine ⟨?_, ?_, ?_⟩
  · intro s1 hok
    have hi := (Desktop.Initialize_ok driver₁ w h sd s1 hok).1
    exact ⟨hi, Desktop.initialized_Initialize_ok driver₂ w₂ h₂ s1 hi⟩
  · intro hcase
    by_cases hi : sm.gm.mIsInitialized = true
    · rw [Mobile.initialized_Initialize_noop egl₁ app₁ sm hi]
      exact hi
    · have hall : egl₁.allSucceed := hcase.resolve_left hi
      rw [Mobile.Initialize_success egl₁ app₁ sm (by simpa using hi) hall]
  · intro hi
    exact Mobile.initialized_Initialize_noop egl₂ app₂ _ hi

/-- C4 on the fixtures: a desktop first call that returns, and a mobile
first call in which every step succeeds. -/
theorem C4_second_Initialize_is_noop_witness :
    (∃ s1, Desktop.Initialize Desktop.driverVSync 800 600 World.fresh = Except.ok s1 ∧
      s1.gm.mIsInitialized = true ∧
      Desktop.Initialize Desktop.driverNoVSync 1024 768 s1 = Except.ok s1) ∧
    Mobile.Initialize Mobile.eglNoDisplay Mobile.fixtureApp
        (Mobile.Initialize Mobile.eglGood Mobile.fixtureApp World.fresh) =
      Mobile.Initialize Mobile.eglGood Mobile.fixtureApp World.fresh :=
  have key := C4_second_Initialize_is_noop Desktop.driverVSync Desktop.driverNoVSync
    800 600 1024 768 World.fresh Mobile.eglGood Mobile.eglNoDisplay Mobile.fixtureApp
    Mobile.fixtureApp World.fresh
  ⟨⟨_, rfl, key.1 _ rfl⟩, key.2.2 (key.2.1 (Or.inr (by decide)))⟩

/-- C4 fails as stated: on a freshly constructed mobile manager a first
`Initialize` that finds no display leaves `isInitialized = false`, and the
second `Initialize` runs the EGL chain and changes the state. -/
theorem C4_counterexample :
    (Mobile.Initialize Mobile.eglNoDisplay Mobile.fixtureApp World.fresh).gm.mIsInitialized
      = false ∧
    (Mobile.Initialize Mobile.eglGood Mobile.fixtureApp
      (Mobile.Initialize Mobile.eglNoDisplay Mobile.fixtureApp World.fresh)).calls =
      (Mobile.Initialize Mobile.eglNoDisplay Mobile.fixtureApp World.fresh).calls ++
        Mobile.chainCalls Mobile.eglGood Mobile.fixtureApp ∧
    (Mobile.Initialize Mobile.eglGood Mobile.fixtureApp
      (Mobile.Initialize Mobile.eglNoDisplay Mobile.fixtureApp World.fresh)).gm.mIsInitialized
      = true ∧
    Mobile.Initialize Mobile.eglGood Mobile.fixtureApp
      (Mobile.Initialize Mobile.eglNoDisplay Mobile.fixtureApp World.fresh) ≠
      Mobile.Initialize Mobile.eglNoDisplay Mobile.fixtureApp World.fresh := by
  refine ⟨rfl, ?_, rfl, ?_⟩
  · rw [Mobile.Initialize_success Mobile.eglGood Mobile.fixtureApp _ rfl (by decide)]
  · intro h
    have h2 := congrArg (fun s => s.gm.mIsInitialized) h
    exact absurd h2 (by decide)


/-! ### C5 -/

/-- C5, as the code has it: for every state of the mobile manager (the
reachable ones among them), calling `Destroy()` twice faults nowhere
(`Destroy` is total), the display handle is at its sentinel after the first
call and after the second, and the second call changes no field of the
manager and makes no call. The surface and context handles are at their
sentinels after the first call and after the second whenever the display
handle was not at its sentinel before the first call. -/
theorem C5_Destroy_twice (s : World) :
    (Mobile.Destroy s).gm.mDisplay = EGL_NO_DISPLAY ∧
    (Mobile.Destroy (Mobile.Destroy s)).gm.mDisplay = EGL_NO_DISPLAY ∧
    (Mobile.Destroy (Mobile.Destroy s)).gm = (Mobile.Destroy s).gm ∧
    (Mobile.Destroy (Mobile.Destroy s)).calls = (Mobile.Destroy s).calls ∧
    (s.gm.mDisplay ≠ EGL_NO_DISPLAY →
      (Mobile.Destroy s).gm.mSurface = EGL_NO_SURFACE ∧
      (Mobile.Destroy s).gm.mContext = EGL_NO_CONTEXT ∧
      (Mobile.Destroy (Mobile.Destroy s)).gm.mSurface = EGL_NO_SURFACE ∧
      (Mobile.Destroy (Mobile.Destroy s)).gm.mContext = EGL_NO_CONTEXT) := by
  have h2 : Mobile.Destroy (Mobile.Destroy s) =
      Log LogLevel.Info "Graphics Manager : Destroy" (Mobile.Destroy s) :=
    Mobile.Destroy_of_no_display _ (Mobile.Destroy_display s)
  refine ⟨Mobile.Destroy_display s, Mobile.Destroy_display _, ?_, ?_, ?_⟩
  · rw [h2, Log_gm]
  · rw [h2, Log_calls]
  · intro hd
    have h1 := Mobile.Destroy_of_display s hd
    rw [h2, Log_gm]
    exact ⟨h1.1, h1.2, h1.1, h1.2⟩

/-- C5 on a manager that was initialized with every step succeeding. -/
theorem C5_Destroy_twice_witness :
    (Mobile.Destroy (Mobile.run [Mobile.Op.init Mobile.eglGood Mobile.fixtureApp]
      World.fresh)).gm.mSurface = EGL_NO_SURFACE ∧
    (Mobile.Destroy (Mobile.run [Mobile.Op.init Mobile.eglGood Mobile.fixtureApp]
      World.fresh)).gm.mContext = EGL_NO_CONTEXT ∧
    (Mobile.Destroy (Mobile.Destroy (Mobile.run
      [Mobile.Op.init Mobile.eglGood Mobile.fixtureApp] World.fresh))).gm.mSurface =
        EGL_NO_SURFACE ∧
    (Mobile.Destroy (Mobile.Destroy (Mobile.run
      [Mobile.Op.init Mobile.eglGood Mobile.fixtureApp] World.fresh))).gm.mContext =
        EGL_NO_CONTEXT :=
  (C5_Destroy_twice (Mobile.run [Mobile.Op.init Mobile.eglGood Mobile.fixtureApp]
    World.fresh)).2.2.2.2 (by decide)

/-- C5 fails as stated: from the freshly constructed manager, an
`Initialize` that creates the surface and fails at the context, then an
`Initialize` that finds no display, reach a state in which `Destroy()`,
once or twice, leaves the surface handle away from its sentinel. -/
theorem C5_counterexample :
    (Mobile.run [Mobile.Op.init Mobile.eglNoContext Mobile.fixtureApp,
      Mobile.Op.init Mobile.eglNoDisplay Mobile.fixtureApp] World.fresh).gm.mSurface = 2 ∧
    (Mobile.Destroy (Mobile.run [Mobile.Op.init Mobile.eglNoContext Mobile.fixtureApp,
      Mobile.Op.init Mobile.eglNoDisplay Mobile.fixtureApp] World.fresh)).gm.mSurface
        ≠ EGL_NO_SURFACE ∧
    (Mobile.Destroy (Mobile.Destroy (Mobile.run
      [Mobile.Op.init Mobile.eglNoContext Mobile.fixtureApp,
        Mobile.Op.init Mobile.eglNoDisplay Mobile.fixtureApp] World.fresh))).gm.mSurface
        ≠ EGL_NO_SURFACE := by
  refine ⟨rfl, ?_, ?_⟩ <;> decide

/-! ### C6 -/

/-- C6, the code at the claim's situation: on an uninitialized desktop
manager whose swap-interval setter is null, with a driver that answers the
extension query and does not list `WGL_EXT_swap_control`,
`InitializeOpenGLFunctors` returns `false` leaving the pointers null, and
`Initialize(w, h)` then calls `SetVSync(true)`, which goes through the null
pointer: `Initialize` does not complete. -/
theorem C6_Initialize_unsupported_calls_null (driver : Desktop.WGLDriver) (w h : Int)
    (s : World) (hu : s.gm.mIsInitialized = false)
    (hnull : s.gm.mWglSwapIntervalEXT = NULL)
    (hprobe : driver.procAddress "wglGetExtensionsStringEXT" ≠ NULL)
    (hunsup : Desktop.strstr driver.extensions.data "WGL_EXT_swap_control".data = none) :
    (∃ s1, Desktop.InitializeOpenGLFunctors driver s = Except.ok (false, s1) ∧
      s1.gm.mWglSwapIntervalEXT = NULL ∧
      s1.gm.mWglGetSwapIntervalEXT = s.gm.mWglGetSwapIntervalEXT) ∧
    Desktop.Initialize driver w h s = Except.error Fault.nullFunctionPointerCall := by
  constructor
  · exact ⟨_, Desktop.InitializeOpenGLFunctors_unsupported driver s hprobe hunsup, hnull, rfl⟩
  · unfold Desktop.Initialize
    simp only [hu, Bool.not_false, reduceIte,
      Desktop.InitializeOpenGLFunctors_unsupported driver _ hprobe hunsup]
    rw [Desktop.SetVSync_null]
    exact hnull

/-- C6 at the failing input: `Initialize(800, 600)` on the freshly
constructed manager with a driver that lacks the extension. -/
theorem C6_Initialize_unsupported_calls_null_witness :
    Desktop.Initialize Desktop.driverNoVSync 800 600 World.fresh =
      Except.error Fault.nullFunctionPointerCall :=
  (C6_Initialize_unsupported_calls_null Desktop.driverNoVSync 800 600 World.fresh rfl rfl
    (by decide) (by decide)).2

/-! ### C7 -/

/-- C7, the code on both sides of the claim: with the swap-interval setter
cached, `SetVSync(enabled)` calls it exactly once, with `1` when `enabled` is
true and `0` when it is false, and changes nothing else; with the setter
null, `SetVSync` calls through the null pointer and faults, it is not a
no-op. -/
theorem C7_SetVSync (vSync : Bool) (s : World) :
    (s.gm.mWglSwapIntervalEXT ≠ NULL →
      Desktop.SetVSync vSync s = Except.ok { s with
        calls := s.calls ++
          [Call.wglSwapIntervalEXT s.gm.mWglSwapIntervalEXT (if vSync then 1 else 0)] }) ∧
    (s.gm.mWglSwapIntervalEXT = NULL →
      Desktop.SetVSync vSync s = Except.error Fault.nullFunctionPointerCall) := by
  constructor
  · intro hp
    unfold Desktop.SetVSync Desktop.callSwapIntervalEXT
    cases vSync <;> simp [hp, emit]
  · exact Desktop.SetVSync_null vSync s

/-- C7 at the failing input: `SetVSync(true)` on the freshly constructed
manager, whose setter is null. -/
theorem C7_SetVSync_witness :
    Desktop.SetVSync true World.fresh = Except.error Fault.nullFunctionPointerCall :=
  (C7_SetVSync true World.fresh).2 rfl

/-! ### C8 -/

/-- C8, the code at the claim's first operation: desktop `Initialize(w, h)`
on an uninitialized manager, when it returns, has stored
`(float(w), float(h))` as the screen resolution and has left
`viewportResolution` as it was. It changes the screen resolution without
recomputing the viewport. -/
theorem C8_Initialize_keeps_viewport (driver : Desktop.WGLDriver) (w h : Int) (s s1 : World)
    (hu : s.gm.mIsInitialized = false)
    (hok : Desktop.Initialize driver w h s = Except.ok s1) :
    s1.gm.mScreenResolution = ⟨floatOfInt w, floatOfInt h⟩ ∧
    s1.gm.mViewportResolution = s.gm.mViewportResolution := by
  obtain ⟨-, hvp, hsr⟩ := Desktop.Initialize_ok driver w h s s1 hok
  exact ⟨hsr hu, hvp⟩

/-- C8 at the failing input: `Initialize(800, 600)` on the freshly
constructed manager returns with the screen resolution `(800, 600)` and the
viewport resolution still `(0, 0)`, while `CalculateViewPort` on that state
stores `(800, 600)`. -/
theorem C8_Initialize_keeps_viewport_witness :
    ∃ s1 t, Desktop.Initialize Desktop.driverVSync 800 600 World.fresh = Except.ok s1 ∧
      s1.gm.mScreenResolution = ⟨800, 600⟩ ∧
      s1.gm.mViewportResolution = ⟨0, 0⟩ ∧
      CalculateViewPort s1 = Except.ok t ∧
      t.gm.mViewportResolution = ⟨800, 600⟩ ∧
      s1.gm.mViewportResolution ≠ t.gm.mViewportResolution := by
  have hex : ∃ s1, Desktop.Initialize Desktop.driverVSync 800 600 World.fresh = Except.ok s1 :=
    ⟨_, rfl⟩
  obtain ⟨s1, hok⟩ := hex
  obtain ⟨hsr, hvp⟩ :=
    C8_Initialize_keeps_viewport Desktop.driverVSync 800 600 World.fresh s1 rfl hok
  have hsr2 : s1.gm.mScreenResolution = ⟨800, 600⟩ := by
    rw [hsr, floatOfInt_eq 800 (by norm_num), floatOfInt_eq 600 (by norm_num)]
    norm_num
  have hvp2 : s1.gm.mViewportResolution = ⟨0, 0⟩ := hvp.trans rfl
  have hc := CalculateViewPort_of_values s1 ⟨0, 0, 800, 600, 800, 600⟩
    (by rw [hsr2]; exact viewportValues_800_600)
  refine ⟨s1, _, hok, hsr2, hvp2, hc, rfl, ?_⟩
  rw [hvp2]
  simp [applyViewport]

/-! ### C9 -/

/-- C9: mobile `Initialize` on an uninitialized manager. If one of the EGL
steps fails, `Initialize` returns with `isInitialized = false` and with
`screenResolution` and `viewportResolution` unchanged, and a following
`Initialize` begins again at the first step, `eglGetDisplay`, and runs the
whole chain when every step succeeds. If every step succeeds,
`isInitialized = true` and `screenResolution = viewportResolution =` the
queried surface `(width, height)`. -/
theorem C9_Mobile_Initialize (egl : Mobile.EGL) (app : Mobile.android_app) (s : World)
    (hu : s.gm.mIsInitialized = false) :
    (egl.someStepFails →
      (Mobile.Initialize egl app s).gm.mIsInitialized = false ∧
      (Mobile.Initialize egl app s).gm.mScreenResolution = s.gm.mScreenResolution ∧
      (Mobile.Initialize egl app s).gm.mViewportResolution = s.gm.mViewportResolution ∧
      ∀ (egl₂ : Mobile.EGL) (app₂ : Mobile.android_app),
        (Mobile.Initialize egl app s).calls ++ [Call.eglGetDisplay EGL_DEFAULT_DISPLAY] <+:
          (Mobile.Initialize egl₂ app₂ (Mobile.Initialize egl app s)).calls ∧
        (egl₂.allSucceed →
          (Mobile.Initialize egl₂ app₂ (Mobile.Initialize egl app s)).calls =
            (Mobile.Initialize egl app s).calls ++ Mobile.chainCalls egl₂ app₂ ∧
          (Mobile.Initialize egl₂ app₂ (Mobile.Initialize egl app s)).gm.mIsInitialized
            = true)) ∧
    (egl.allSucceed →
      (Mobile.Initialize egl app s).gm.mIsInitialized = true ∧
      (Mobile.Initialize egl app s).gm.mScreenResolution = ⟨(egl.sX : ℚ), (egl.sY : ℚ)⟩ ∧
      (Mobile.Initialize egl app s).gm.mViewportResolution = ⟨(egl.sX : ℚ), (egl.sY : ℚ)⟩) ∧
    (egl.someStepFails ∨ egl.allSucceed) := by
  refine ⟨?_, ?_, ?_⟩
  · intro hf
    obtain ⟨h1, h2, h3, -⟩ := Mobile.Initialize_failure egl app s hu hf
    refine ⟨h1, h2, h3, ?_⟩
    intro egl₂ app₂
    refine ⟨Mobile.Initialize_starts_chain egl₂ app₂ _ h1, ?_⟩
    intro hall
    rw [Mobile.Initialize_success egl₂ app₂ _ h1 hall]
    exact ⟨rfl, rfl⟩
  · intro hall
    rw [Mobile.Initialize_success egl app s hu hall]
    exact ⟨rfl, rfl, rfl⟩
  · by_cases hall : egl.allSucceed
    · exact Or.inr hall
    · exact Or.inl ((Mobile.someStepFails_iff_not_allSucceed egl).mpr hall)

/-- C9 on the freshly constructed manager: an attempt that fails at the
context, and the retry on which every step succeeds. -/
theorem C9_Mobile_Initialize_witness :
    ((Mobile.Initialize Mobile.eglNoContext Mobile.fixtureApp World.fresh).gm.mIsInitialized
        = false ∧
      (Mobile.Initialize Mobile.eglNoContext Mobile.fixtureApp World.fresh).gm.mScreenResolution
        = World.fresh.gm.mScreenResolution ∧
      (Mobile.Initialize Mobile.eglNoContext Mobile.fixtureApp World.fresh).gm.mViewportResolution
        = World.fresh.gm.mViewportResolution) ∧
    ((Mobile.Initialize Mobile.eglGood Mobile.fixtureApp World.fresh).gm.mIsInitialized = true ∧
      (Mobile.Initialize Mobile.eglGood Mobile.fixtureApp World.fresh).gm.mScreenResolution
        = ⟨((480 : Int) : ℚ), ((800 : Int) : ℚ)⟩ ∧
      (Mobile.Initialize Mobile.eglGood Mobile.fixtureApp World.fresh).gm.mViewportResolution
        = ⟨((480 : Int) : ℚ), ((800 : Int) : ℚ)⟩) :=
  have hfail := (C9_Mobile_Initialize Mobile.eglNoContext Mobile.fixtureApp World.fresh rfl).1
    (by decide)
  ⟨⟨hfail.1, hfail.2.1, hfail.2.2.1⟩,
    (C9_Mobile_Initialize Mobile.eglGood Mobile.fixtureApp World.fresh rfl).2.1 (by decide)⟩

/-- Storing the screen resolution a manager already has changes nothing. -/
theorem set_same_screenResolution (s : World) (r : vec2) (h : s.gm.mScreenResolution = r) :
    { s with gm := { s.gm with mScreenResolution := r } } = s := by
  subst h
  rfl

/-- `CalculateViewPort` neither reads nor writes the window-changed flag. -/
theorem CalculateViewPort_flag (s : World) (b : Bool) :
    CalculateViewPort { s with gm := { s.gm with mbHasWindowChanged := b } } =
      (CalculateViewPort s).map
        (fun t => { t with gm := { t.gm with mbHasWindowChanged := b } }) := by
  rw [CalculateViewPort_eq, CalculateViewPort_eq]
  cases viewportValues s.gm.mScreenResolution with
  | error e => rfl
  | ok v => rfl

/-! ### C10 -/

/-- C10: for every manager state whose screen resolution is `(w, h)`, `w` and
`h` positive `int`s, `SetHasWindowChanged(true)` has the outcome of
`SetWindowDimensions(w, h)` on that state with the flag set: when either
returns so does the other, with the same calls (the same viewport rectangle)
and the same stored `viewportResolution`, and `GetHasWindowChanged()` then
returns true. Both return for sizes below `2 ^ 24`.
`SetHasWindowChanged(false)` returns, stores false, leaves
`viewportResolution` and `screenResolution` unchanged and makes no call. -/
theorem C10_SetHasWindowChanged (s : World) (w h : Int) (hw : 0 < w) (hh : 0 < h)
    (hres : GetWindowResolution s.gm = ⟨floatOfInt w, floatOfInt h⟩) :
    (SetHasWindowChanged true s = (SetWindowDimensions w h s).map
        (fun u => { u with gm := { u.gm with mbHasWindowChanged := true } }) ∧
      (∀ t, SetHasWindowChanged true s = Except.ok t →
        ∃ u, SetWindowDimensions w h s = Except.ok u ∧ t.calls = u.calls ∧
          GetViewportResolution t.gm = GetViewportResolution u.gm ∧
          GetHasWindowChanged t.gm = true) ∧
      (∀ u, SetWindowDimensions w h s = Except.ok u →
        ∃ t, SetHasWindowChanged true s = Except.ok t ∧ t.calls = u.calls ∧
          GetViewportResolution t.gm = GetViewportResolution u.gm ∧
          GetHasWindowChanged t.gm = true) ∧
      (w < 2 ^ 24 → h < 2 ^ 24 →
        (∃ t, SetHasWindowChanged true s = Except.ok t) ∧
        (∃ u, SetWindowDimensions w h s = Except.ok u))) ∧
    (∃ t, SetHasWindowChanged false s = Except.ok t ∧
      GetHasWindowChanged t.gm = false ∧
      GetViewportResolution t.gm = GetViewportResolution s.gm ∧
      GetWindowResolution t.gm = GetWindowResolution s.gm ∧
      t.calls = s.calls) := by
  have hres' : s.gm.mScreenResolution = ⟨floatOfInt w, floatOfInt h⟩ := hres
  have hdim : SetWindowDimensions w h s = CalculateViewPort s := by
    unfold SetWindowDimensions
    rw [set_same_screenResolution s _ hres']
  have htrue : SetHasWindowChanged true s = (CalculateViewPort s).map
      (fun u => { u with gm := { u.gm with mbHasWindowChanged := true } }) := by
    unfold SetHasWindowChanged
    simp only [reduceIte]
    exact CalculateViewPort_flag s true
  refine ⟨⟨?_, ?_, ?_, ?_⟩, ?_⟩
  · rw [htrue, hdim]
  · intro t ht
    rw [htrue] at ht
    obtain ⟨u, hu, rfl⟩ := map_eq_ok _ _ _ ht
    exact ⟨u, by rw [hdim, hu], rfl, rfl, rfl⟩
  · intro u hu
    rw [hdim] at hu
    exact ⟨{ u with gm := { u.gm with mbHasWindowChanged := true } },
      by rw [htrue, hu]; rfl, rfl, rfl, rfl⟩
  · intro hw2 hh2
    have e1 : floatOfInt w = w := floatOfInt_eq w (by rw [abs_of_pos hw]; exact hw2)
    have e2 : floatOfInt h = h := floatOfInt_eq h (by rw [abs_of_pos hh]; exact hh2)
    have b1 : (1 : ℚ) ≤ w := by exact_mod_cast hw
    have b2 : (w : ℚ) ≤ 2 ^ 24 := by exact_mod_cast hw2.le
    have b3 : (1 : ℚ) ≤ h := by exact_mod_cast hh
    have b4 : (h : ℚ) ≤ 2 ^ 24 := by exact_mod_cast hh2.le
    obtain ⟨v, hv⟩ := viewportValues_defined w h b1 b2 b3 b4
    have hc : CalculateViewPort s = Except.ok (applyViewport s v) :=
      CalculateViewPort_of_values s v (by rw [hres', e1, e2]; exact hv)
    exact ⟨⟨_, by rw [htrue, hc]; rfl⟩, ⟨_, by rw [hdim, hc]⟩⟩
  · exact ⟨_, rfl, rfl, rfl, rfl, rfl⟩

/-- C10 on a manager whose screen resolution is `1024 x 768`. -/
theorem C10_SetHasWindowChanged_witness :
    (∃ t, SetHasWindowChanged true (fixtureWorld (floatOfInt 1024) (floatOfInt 768)) =
      Except.ok t) ∧
    (∃ u, SetWindowDimensions 1024 768 (fixtureWorld (floatOfInt 1024) (floatOfInt 768)) =
      Except.ok u) :=
  (C10_SetHasWindowChanged (fixtureWorld (floatOfInt 1024) (floatOfInt 768)) 1024 768
    (by decide) (by decide) rfl).1.2.2.2 (by decide) (by decide)

end star
